import Mathlib

/-!
# Magic_Cam: frame synthesizer, bounded frame queue and streaming loop

A shallow embedding of `frame_generator.h`, `frame_generator.cpp` and
`v4l2_native.cpp`.

Conventions of the embedding

* A C++ `int` is an `Int`.  Arithmetic on coordinates and geometry is done in
  `Int`; signed overflow is undefined behaviour in C++ and no theorem below is
  stated about an execution in which it would occur.  The conversions the
  source writes out (`static_cast<int>` of the 64-bit counter,
  `static_cast<uint8_t>`, the `uint64_t` increment, the `size_t` conversion)
  are modelled with explicit remainders.
* `/` and `%` on `int` are the truncating `Int.tdiv` and `Int.tmod`.
* A byte buffer is a `List Nat`; a raw pointer carries no length, so every
  store is guarded here and a store outside the buffer is a `Fault`.
* Values that come from the wall clock and from floating point arithmetic
  (`cos`, `sin`, `sqrt`) enter through a `TimeEnv` argument.
* The file-scope statics of `v4l2_native.cpp` are the fields of `Session`;
  the streaming thread is advanced one loop iteration at a time.
-/

namespace MagicCam

/-! ## Faults and machine conversions -/

/-- Ways in which an unguarded C++ operation can go wrong. -/
inductive Fault where
  | divisionByZero
  | outOfBounds
  | threadTerminate
  deriving DecidableEq, Repr

deriving instance DecidableEq for Except

/-- Conversion `static_cast<uint8_t>(v)` of an `int`. -/
def toUint8 (v : Int) : Nat := (v % 256).toNat

/-- Conversion `static_cast<int>(n)` of a `uint64_t`: the low 32 bits, read
as a two's complement number. -/
def toInt32 (n : Nat) : Int :=
  if n % 2 ^ 32 < 2 ^ 31 then ((n % 2 ^ 32 : Nat) : Int)
  else ((n % 2 ^ 32 : Nat) : Int) - 2 ^ 32

/-- Conversion of an `int` to `size_t` (64 bit). -/
def toSizeT (v : Int) : Nat := (v % 2 ^ 64).toNat

/-- Division `a / b` of two `int`s; a zero divisor is a fault. -/
def intDiv (a b : Int) : Except Fault Int :=
  if b = 0 then .error .divisionByZero else .ok (Int.tdiv a b)

/-- Store `buffer[offset] = v`. -/
def store (buffer : List Nat) (offset : Int) (v : Nat) : Except Fault (List Nat) :=
  if 0 ≤ offset ∧ offset < (buffer.length : Int) then
    .ok (buffer.set offset.toNat v)
  else .error .outOfBounds

/-- Call `memset(buffer, 0, n)`. -/
def memsetZero (buffer : List Nat) (n : Nat) : Except Fault (List Nat) :=
  if n ≤ buffer.length then .ok (List.replicate n 0 ++ buffer.drop n)
  else .error .outOfBounds

/-- Iterations `i, i+1, ...` of a `for` loop, `n` of them. -/
def forLoopFrom {σ : Type} (body : Int → σ → Except Fault σ) : Nat → Int → σ → Except Fault σ
  | 0, _, s => .ok s
  | n + 1, i, s =>
    match body i s with
    | .error e => .error e
    | .ok s' => forLoopFrom body n (i + 1) s'

/-- Loop `for (int i = lo; i < hi; i++) body`. -/
def forLoop {σ : Type} (lo hi : Int) (body : Int → σ → Except Fault σ) (s : σ) :
    Except Fault σ :=
  forLoopFrom body (hi - lo).toNat lo s

/-! ## frame_generator.h / frame_generator.cpp -/

/-- Enumerator `FramePattern::TEST_PATTERN`. -/
def TEST_PATTERN : Int := 0
/-- Enumerator `FramePattern::COLOR_BARS`. -/
def COLOR_BARS : Int := 1
/-- Enumerator `FramePattern::IMAGE_FILE`. -/
def IMAGE_FILE : Int := 2
/-- Enumerator `FramePattern::VIDEO_FILE`. -/
def VIDEO_FILE : Int := 3
/-- Enumerator `FramePattern::RTMP_STREAM`. -/
def RTMP_STREAM : Int := 4

/-- What one call of a pattern function reads from the clock and computes in
floating point.
* `orbit_dx` is `static_cast<int>(50 * cos(time_sec))`,
* `orbit_dy` is `static_cast<int>(50 * sin(time_sec))`,
* `disk d` is `none` when `sqrt(d) <= 30` fails and otherwise the byte
  `static_cast<uint8_t>(255 * (1.0 - sqrt(d) / 30))`,
* `pulse` is the byte `static_cast<uint8_t>(128 + 127 * sin(time_sec * 2))`. -/
structure TimeEnv where
  orbit_dx : Int
  orbit_dy : Int
  disk : Int → Option Nat
  pulse : Nat

/-- Data members of `class FrameGenerator` (the `start_time` member is read
only through `TimeEnv`). -/
structure FrameGenerator where
  frame_width : Int
  frame_height : Int
  frame_size : Nat
  current_pattern : Int
  frame_counter : Nat
  deriving DecidableEq, Repr

namespace FrameGenerator

/-- Constructor `FrameGenerator(width, height, pattern)`. -/
def new (width height : Int) (pattern : Int) : FrameGenerator :=
  { frame_width := width
    frame_height := height
    frame_size := toSizeT (width * height * 3)
    current_pattern := pattern
    frame_counter := 0 }

/-- Member function `setPixel`. -/
def setPixel (self : FrameGenerator) (buffer : List Nat) (x y : Int) (r g b : Nat) :
    Except Fault (List Nat) :=
  if x ≥ 0 ∧ x < self.frame_width ∧ y ≥ 0 ∧ y < self.frame_height then do
    let offset := (y * self.frame_width + x) * 3
    let buffer ← store buffer offset r
    let buffer ← store buffer (offset + 1) g
    store buffer (offset + 2) b
  else .ok buffer

/-- Member function `generateTestPattern`. -/
def generateTestPattern (self : FrameGenerator) (buffer : List Nat) : Except Fault (List Nat) :=
  forLoop 0 self.frame_height (fun y buffer =>
    forLoop 0 self.frame_width (fun x buffer =>
      let value := Int.tmod (x + y + toInt32 self.frame_counter) 255
      let r := toUint8 value
      let g := toUint8 (Int.tmod (value + 85) 255)
      let b := toUint8 (Int.tmod (value + 170) 255)
      self.setPixel buffer x y r g b) buffer) buffer

/-- Table `colors[8][3]` of `generateColorBars`:
White, Yellow, Cyan, Green, Magenta, Red, Blue, Black. -/
def colors : List (Nat × Nat × Nat) :=
  [(255, 255, 255), (255, 255, 0), (0, 255, 255), (0, 255, 0),
   (255, 0, 255), (255, 0, 0), (0, 0, 255), (0, 0, 0)]

/-- Row `colors[i]`. -/
def colorsRow (i : Int) : Except Fault (Nat × Nat × Nat) :=
  if 0 ≤ i then
    match colors[i.toNat]? with
    | some c => .ok c
    | none => .error .outOfBounds
  else .error .outOfBounds

/-- Member function `generateColorBars`. -/
def generateColorBars (self : FrameGenerator) (buffer : List Nat) : Except Fault (List Nat) :=
  let bar_width := Int.tdiv self.frame_width 8
  forLoop 0 self.frame_height (fun y buffer =>
    forLoop 0 self.frame_width (fun x buffer => do
      let bar_index ← intDiv x bar_width
      let bar_index := if bar_index ≥ 8 then 7 else bar_index
      let c ← colorsRow bar_index
      self.setPixel buffer x y c.1 c.2.1 c.2.2) buffer) buffer

/-- Member function `generateImageFile`. -/
def generateImageFile (self : FrameGenerator) (buffer : List Nat) : Except Fault (List Nat) :=
  let checker_size : Int := 32
  forLoop 0 self.frame_height (fun y buffer =>
    forLoop 0 self.frame_width (fun x buffer =>
      let checker : Bool := Int.tmod (Int.tdiv x checker_size + Int.tdiv y checker_size) 2 == 0
      let value : Nat := if checker then 255 else 64
      self.setPixel buffer x y value value value) buffer) buffer

/-- Member function `generateVideoFile`. -/
def generateVideoFile (env : TimeEnv) (self : FrameGenerator) (buffer : List Nat) :
    Except Fault (List Nat) := do
  let buffer ← memsetZero buffer self.frame_size
  let center_x := Int.tdiv self.frame_width 2 + env.orbit_dx
  let center_y := Int.tdiv self.frame_height 2 + env.orbit_dy
  forLoop 0 self.frame_height (fun y buffer =>
    forLoop 0 self.frame_width (fun x buffer =>
      let dx := x - center_x
      let dy := y - center_y
      match env.disk (dx * dx + dy * dy) with
      | some intensity => self.setPixel buffer x y intensity (intensity / 2) (intensity / 4)
      | none => .ok buffer) buffer) buffer

/-- Member function `generateRTMPPlaceholder`. -/
def generateRTMPPlaceholder (env : TimeEnv) (self : FrameGenerator) (buffer : List Nat) :
    Except Fault (List Nat) := do
  let intensity := env.pulse
  let buffer ← forLoop 0 self.frame_height (fun y buffer =>
    forLoop 0 self.frame_width (fun x buffer =>
      self.setPixel buffer x y intensity 0 0) buffer) buffer
  let center_x := Int.tdiv self.frame_width 2
  let center_y := Int.tdiv self.frame_height 2
  forLoop (center_y - 20) (center_y + 20) (fun y buffer =>
    forLoop (center_x - 60) (center_x + 60) (fun x buffer =>
      if x ≥ 0 ∧ x < self.frame_width ∧ y ≥ 0 ∧ y < self.frame_height then
        let is_letter : Bool := Int.tmod (Int.tdiv (x - center_x + 60) 30) 2 == 0
        if is_letter ∧ Int.tmod (y - center_y + 20) 10 < 5 then
          self.setPixel buffer x y 255 255 255
        else .ok buffer
      else .ok buffer) buffer) buffer

/-- The `switch` of `generateFrame`: the pattern function selected by
`current_pattern`, `generateTestPattern` by default. -/
def renderPattern (env : TimeEnv) (self : FrameGenerator) (buffer : List Nat) :
    Except Fault (List Nat) :=
  if self.current_pattern = TEST_PATTERN then self.generateTestPattern buffer
  else if self.current_pattern = COLOR_BARS then self.generateColorBars buffer
  else if self.current_pattern = IMAGE_FILE then self.generateImageFile buffer
  else if self.current_pattern = VIDEO_FILE then self.generateVideoFile env buffer
  else if self.current_pattern = RTMP_STREAM then self.generateRTMPPlaceholder env buffer
  else self.generateTestPattern buffer

/-- Member function `generateFrame`: render, then `frame_counter++`. -/
def generateFrame (env : TimeEnv) (self : FrameGenerator) (buffer : List Nat) :
    Except Fault (FrameGenerator × List Nat) := do
  let buffer ← renderPattern env self buffer
  .ok ({ self with frame_counter := (self.frame_counter + 1) % 2 ^ 64 }, buffer)

end FrameGenerator

/-- The three bytes of pixel `(x, y)` in a row-major RGB24 buffer of the
given width. -/
def pixelAt (buffer : List Nat) (width x y : Int) : Option (Nat × Nat × Nat) :=
  let offset := ((y * width + x) * 3).toNat
  match buffer[offset]?, buffer[offset + 1]?, buffer[offset + 2]? with
  | some r, some g, some b => some (r, g, b)
  | _, _, _ => none

/-! ## v4l2_native.cpp -/

/-- Value of `EAGAIN` in the Linux `<errno.h>` (the header is not part of
the repository). -/
def EAGAIN : Int := 11
/-- Value of `EWOULDBLOCK` in the Linux `<errno.h>`, where it is `EAGAIN`. -/
def EWOULDBLOCK : Int := 11

/-- Result of `write(v4l2_fd, frame_buffer, frame_size)`: the number of
bytes written, or a negative return value together with `errno`. -/
inductive WriteResult where
  | bytes (n : Nat)
  | failed (errno : Int)
  deriving DecidableEq, Repr

/-- State of `static std::thread streaming_thread`.
* `notStarted`: default constructed or joined, not joinable;
* `looping frame_buffer`: the thread is in its `while` loop and owns
  `frame_buffer`;
* `finished`: the thread function has returned, the thread is still
  joinable. -/
inductive ThreadState where
  | notStarted
  | looping (frame_buffer : List Nat)
  | finished
  deriving DecidableEq, Repr

/-- File-scope statics of `v4l2_native.cpp`.  The field `sink_writes` is not
a static of the source: it records, oldest first, the byte blocks handed to
`write(v4l2_fd, ...)`. -/
structure Session where
  v4l2_fd : Int
  streaming : Bool
  streaming_thread : ThreadState
  frame_generator : Option FrameGenerator
  rtmp_frame_queue : List (List Nat)
  use_rtmp_frames : Bool
  sink_writes : List (List Nat)
  deriving DecidableEq, Repr

/-- Initial values of the statics. -/
def Session.initial : Session :=
  { v4l2_fd := -1
    streaming := false
    streaming_thread := .notStarted
    frame_generator := none
    rtmp_frame_queue := []
    use_rtmp_frames := false
    sink_writes := [] }

/-- JNI entry point `startFrameStreaming(pattern)`.  The array returned by
`new uint8_t[frame_size]` is not initialised: `fill i` is the byte found at
index `i`.  Returns the new statics and the `jboolean` result. -/
def startFrameStreaming (pattern : Int) (fill : Nat → Nat) (s : Session) :
    Except Fault (Session × Bool) :=
  if s.v4l2_fd < 0 then .ok (s, false)
  else if s.streaming then .ok (s, true)
  else
    let s : Session :=
      if pattern = 4 then { s with use_rtmp_frames := true }
      else { s with
        use_rtmp_frames := false
        frame_generator := some (FrameGenerator.new 640 480 pattern) }
    let s : Session := { s with streaming := true }
    match s.streaming_thread with
    | .notStarted =>
      let frame_size : Nat := 640 * 480 * 3
      .ok ({ s with streaming_thread := .looping ((List.range frame_size).map fill) }, true)
    | _ => .error .threadTerminate

/-- The part of one loop iteration that obtains a frame: returns the statics,
the thread's `frame_buffer` and the flag `frame_ready`. -/
def acquireFrame (env : TimeEnv) (s : Session) (frame_buffer : List Nat) :
    Except Fault (Session × List Nat × Bool) :=
  let frame_size : Nat := 640 * 480 * 3
  if s.use_rtmp_frames then
    match s.rtmp_frame_queue with
    | rtmp_frame :: rest =>
      let s : Session := { s with rtmp_frame_queue := rest }
      if rtmp_frame.length = frame_size then
        .ok (s, rtmp_frame.take frame_size ++ frame_buffer.drop frame_size, true)
      else .ok (s, frame_buffer, false)
    | [] => .ok (s, frame_buffer, false)
  else
    match s.frame_generator with
    | some generator =>
      match generator.generateFrame env frame_buffer with
      | .ok (generator, frame_buffer) =>
        .ok ({ s with frame_generator := some generator }, frame_buffer, true)
      | .error e => .error e
    | none => .ok (s, frame_buffer, false)

/-- One pass of the streaming thread through `while (streaming.load())`: the
loop test and, when it holds, the loop body.  `wr` is what `write` returns
if the body calls it.  A thread that is not in its loop does nothing. -/
def streamingLoopIteration (env : TimeEnv) (wr : WriteResult) (s : Session) :
    Except Fault Session :=
  match s.streaming_thread with
  | .looping frame_buffer =>
    if !s.streaming then .ok { s with streaming_thread := .finished }
    else
      match acquireFrame env s frame_buffer with
      | .error e => .error e
      | .ok (s, frame_buffer, frame_ready) =>
        let frame_size : Nat := 640 * 480 * 3
        if frame_ready then
          let s : Session :=
            { s with sink_writes := s.sink_writes ++ [frame_buffer.take frame_size] }
          match wr with
          | .failed errno =>
            if errno ≠ EAGAIN ∧ errno ≠ EWOULDBLOCK then
              .ok { s with streaming_thread := .finished }
            else .ok { s with streaming_thread := .looping frame_buffer }
          | .bytes _ => .ok { s with streaming_thread := .looping frame_buffer }
        else .ok { s with streaming_thread := .looping frame_buffer }
  | _ => .ok s

/-- JNI entry point `stopFrameStreaming()`.  The `join` waits until the
thread has seen `streaming == false` at its loop test and returned. -/
def stopFrameStreaming (s : Session) : Session × Bool :=
  let s : Session := { s with streaming := false }
  let s : Session := { s with use_rtmp_frames := false }
  let s : Session := { s with streaming_thread := .notStarted }
  let s : Session := { s with frame_generator := none }
  let s : Session := { s with rtmp_frame_queue := [] }
  (s, true)

/-- JNI entry point `pushRTMPFrame(frame_data)`.  `frame_data` holds the
`jbyte`s of the Java array; `elements_ok` tells whether
`GetByteArrayElements` returned a non-null pointer. -/
def pushRTMPFrame (frame_data : List Int) (elements_ok : Bool) (s : Session) :
    Session × Bool :=
  if !s.use_rtmp_frames then (s, false)
  else
    let frame_size : Int := frame_data.length
    if frame_size ≠ 640 * 480 * 3 then (s, false)
    else if !elements_ok then (s, false)
    else
      let queue :=
        if s.rtmp_frame_queue.length > 10 then s.rtmp_frame_queue.tail
        else s.rtmp_frame_queue
      let frame_vector : List Nat := frame_data.map toUint8
      ({ s with rtmp_frame_queue := queue ++ [frame_vector] }, true)

/-- JNI entry point `closeV4L2Device()`. -/
def closeV4L2Device (s : Session) : Session × Bool :=
  if s.v4l2_fd ≥ 0 then ({ s with v4l2_fd := -1 }, true) else (s, true)

/-- JNI entry point `initV4L2Device(device_path)`.  `opened` is what `open`
returns (a descriptor, or a negative value), `querycap_ok` and `s_fmt_ok`
tell whether the two `ioctl` calls succeed. -/
def initV4L2Device (opened : Int) (querycap_ok s_fmt_ok : Bool) (s : Session) :
    Session × Bool :=
  let s : Session := { s with v4l2_fd := opened }
  if s.v4l2_fd < 0 then (s, false)
  else if !querycap_ok then ({ s with v4l2_fd := -1 }, false)
  else if !s_fmt_ok then ({ s with v4l2_fd := -1 }, false)
  else (s, true)

/-- Successive calls of `generateFrame` on one generator and one buffer, as
the streaming loop makes them; the call number `i` reads the clock values
`envs[i]`. -/
def generateFrames : List TimeEnv → FrameGenerator → List Nat →
    Except Fault (FrameGenerator × List Nat)
  | [], generator, buffer => .ok (generator, buffer)
  | env :: envs, generator, buffer =>
    match generator.generateFrame env buffer with
    | .error e => .error e
    | .ok (generator, buffer) => generateFrames envs generator buffer

/-- Frame number `envs.length`, counted from 0: the result of the call of
`generateFrame` that follows `envs.length` earlier calls on the same
generator and buffer. -/
def nthGenerateFrame (envs : List TimeEnv) (env : TimeEnv) (generator : FrameGenerator)
    (buffer : List Nat) : Except Fault (FrameGenerator × List Nat) :=
  match generateFrames envs generator buffer with
  | .error e => .error e
  | .ok (generator, buffer) => generator.generateFrame env buffer

/-- Successive passes of the streaming thread through its loop, one for each
pair of clock values and `write` result. -/
def runTicks : List (TimeEnv × WriteResult) → Session → Except Fault Session
  | [], s => .ok s
  | (env, wr) :: ticks, s =>
    match streamingLoopIteration env wr s with
    | .error e => .error e
    | .ok s => runTicks ticks s

/-- A `write` result after which the loop executes `break`. -/
def WriteResult.isFatal : WriteResult → Bool
  | .bytes _ => false
  | .failed errno => errno ≠ EAGAIN ∧ errno ≠ EWOULDBLOCK

/-- The states the statics can take when the entry points and the loop
passes are applied, in any order and with any arguments, starting from
`s0`. -/
inductive ReachableFrom (s0 : Session) : Session → Prop where
  | base : ReachableFrom s0 s0
  | init (s : Session) (opened : Int) (querycap_ok s_fmt_ok : Bool) :
      ReachableFrom s0 s → ReachableFrom s0 (initV4L2Device opened querycap_ok s_fmt_ok s).1
  | close (s : Session) :
      ReachableFrom s0 s → ReachableFrom s0 (closeV4L2Device s).1
  | start (s s' : Session) (pattern : Int) (fill : Nat → Nat) (r : Bool) :
      ReachableFrom s0 s → startFrameStreaming pattern fill s = .ok (s', r) →
      ReachableFrom s0 s'
  | stop (s : Session) :
      ReachableFrom s0 s → ReachableFrom s0 (stopFrameStreaming s).1
  | push (s : Session) (frame_data : List Int) (elements_ok : Bool) :
      ReachableFrom s0 s → ReachableFrom s0 (pushRTMPFrame frame_data elements_ok s).1
  | tick (s s' : Session) (env : TimeEnv) (wr : WriteResult) :
      ReachableFrom s0 s → streamingLoopIteration env wr s = .ok s' →
      ReachableFrom s0 s'

/-- The states reachable from the initial values of the statics. -/
def Reachable (s : Session) : Prop := ReachableFrom Session.initial s

/-- The frame counter of the session: the `frame_counter` member of the
synthesizer, when there is one.  The source has no other frame counter. -/
def Session.frame_counter (s : Session) : Option Nat :=
  s.frame_generator.map (fun generator => generator.frame_counter)

/-- Shape of the statics as `startFrameStreaming` sets them up: a
synthesizer, when present, has the geometry 640x480 it is constructed with,
and the buffer of a looping thread has the `640 * 480 * 3` bytes it is
allocated with. -/
def Session.Consistent (s : Session) : Prop :=
  (∀ generator, s.frame_generator = some generator →
    generator.frame_width = 640 ∧ generator.frame_height = 480
      ∧ generator.frame_size = 640 * 480 * 3)
  ∧ (∀ frame_buffer, s.streaming_thread = .looping frame_buffer →
    frame_buffer.length = 640 * 480 * 3)

/-! ## What the specification prescribes -/

/-- Pixel of the TestPattern as the specification words it:
`value = (x + y + frame_counter) mod 255` with the mathematical remainder,
red `value`, green `(value + 85) mod 255`, blue `(value + 170) mod 255`. -/
def specTestPatternPixel (x y : Int) (frame_counter : Nat) : Nat × Nat × Nat :=
  let value : Int := (x + y + (frame_counter : Int)) % 255
  (value.toNat, ((value + 85) % 255).toNat, ((value + 170) % 255).toNat)

/-- The bar sequence of the specification as RGB triples:
White, Yellow, Cyan, Green, Magenta, Red, Blue, Black. -/
def specBarSequence : List (Nat × Nat × Nat) :=
  [(255, 255, 255), (255, 255, 0), (0, 255, 255), (0, 255, 0),
   (255, 0, 255), (255, 0, 0), (0, 0, 255), (0, 0, 0)]

/-- Pixel of the ColorBars as the specification words it: the colour at
index `floor(x / floor(width / 8))`, clamped to 7, of the bar sequence. -/
def specColorBarsPixel (width x : Int) : Option (Nat × Nat × Nat) :=
  specBarSequence[(min (x / (width / 8)) 7).toNat]?

/-- Pixel of the ImageFilePlaceholder as the specification words it: cells
of 32x32 pixels, full white when `(floor(x/32) + floor(y/32)) mod 2 = 0` and
dark gray 64 otherwise. -/
def specImageFilePixel (x y : Int) : Nat × Nat × Nat :=
  if (x / 32 + y / 32) % 2 = 0 then (255, 255, 255) else (64, 64, 64)

/-! ## Inputs used by the statements -/

/-- A Java array of `640 * 480 * 3` bytes, all equal to `k`. -/
def uniformFrame (k : Int) : List Int := List.replicate (640 * 480 * 3) k

/-- A clock and floating point reading: the orbit offsets are 0, no pixel
lies in the disk, the pulse intensity is 128. -/
def stillEnv : TimeEnv :=
  { orbit_dx := 0, orbit_dy := 0, disk := fun _ => none, pulse := 128 }

/-- A thread buffer of `640 * 480 * 3` zero bytes. -/
def blankBuffer : List Nat := List.replicate (640 * 480 * 3) 0

/-- Push the arrays of a list, first to last, `GetByteArrayElements`
succeeding each time. -/
def pushAll (frames : List (List Int)) (s : Session) : Session :=
  frames.foldl (fun s frame_data => (pushRTMPFrame frame_data true s).1) s

/-- Statics of a session streaming in queue mode with an empty queue, as
`startFrameStreaming(4)` leaves them when the buffer starts zeroed. -/
def queueSession : Session :=
  { v4l2_fd := 3
    streaming := true
    streaming_thread := .looping blankBuffer
    frame_generator := none
    rtmp_frame_queue := []
    use_rtmp_frames := true
    sink_writes := [] }

/-- The queue-mode session after one valid array of bytes 7 has been
pushed. -/
def queueSessionOne : Session :=
  { queueSession with rtmp_frame_queue := [(uniformFrame 7).map toUint8] }

/-- Statics of a session streaming the test pattern, as
`startFrameStreaming(0)` leaves them when the buffer starts zeroed. -/
def synthSession : Session :=
  { v4l2_fd := 3
    streaming := true
    streaming_thread := .looping blankBuffer
    frame_generator := some (FrameGenerator.new 640 480 TEST_PATTERN)
    rtmp_frame_queue := []
    use_rtmp_frames := false
    sink_writes := [] }

/-! ## The frame queue -/

theorem uniformFrame_length (k : Int) : (uniformFrame k).length = 640 * 480 * 3 := by
  exact List.length_replicate _ _

/-- An array of the right length whose elements are available, pushed in
queue mode, is appended after the oldest entry is dropped from a queue of
more than ten. -/
theorem pushRTMPFrame_accept (frame_data : List Int) (s : Session)
    (hmode : s.use_rtmp_frames = true) (hlen : frame_data.length = 640 * 480 * 3) :
    pushRTMPFrame frame_data true s =
      ({ s with rtmp_frame_queue :=
          (if s.rtmp_frame_queue.length > 10 then s.rtmp_frame_queue.tail
            else s.rtmp_frame_queue) ++ [frame_data.map toUint8] }, true) := by
  simp [pushRTMPFrame, hmode, hlen]

theorem pushAll_cons (f : List Int) (fs : List (List Int)) (s : Session) :
    pushAll (f :: fs) s = pushAll fs (pushRTMPFrame f true s).1 := rfl

theorem pushAll_mode (fs : List (List Int)) (s : Session) :
    (pushAll fs s).use_rtmp_frames = s.use_rtmp_frames := by
  induction fs generalizing s with
  | nil => rfl
  | cons f fs ih =>
    rw [pushAll_cons, ih]
    unfold pushRTMPFrame
    dsimp only
    split_ifs <;> rfl

/-- Pushing valid arrays onto a queue of at most eleven entries keeps the
last eleven of the old entries followed by the new ones. -/
theorem pushAll_queue (fs : List (List Int)) (s : Session)
    (hmode : s.use_rtmp_frames = true)
    (hvalid : ∀ f ∈ fs, f.length = 640 * 480 * 3)
    (hq : s.rtmp_frame_queue.length ≤ 11) :
    (pushAll fs s).rtmp_frame_queue =
      (s.rtmp_frame_queue ++ fs.map (fun f => f.map toUint8)).drop
        (s.rtmp_frame_queue.length + fs.length - 11) := by
  induction fs generalizing s with
  | nil =>
    simp [pushAll, Nat.sub_eq_zero_of_le hq]
  | cons f fs ih =>
    have hf : f.length = 640 * 480 * 3 := hvalid f (List.mem_cons_self _ _)
    have hrest : ∀ g ∈ fs, g.length = 640 * 480 * 3 :=
      fun g hg => hvalid g (List.mem_cons_of_mem _ hg)
    rw [pushAll_cons, pushRTMPFrame_accept f s hmode hf]
    by_cases hfull : s.rtmp_frame_queue.length > 10
    · have hlen : s.rtmp_frame_queue.length = 11 := by omega
      obtain ⟨a, t, hat⟩ : ∃ a t, s.rtmp_frame_queue = a :: t := by
        cases hs : s.rtmp_frame_queue with
        | nil => simp [hs] at hlen
        | cons a t => exact ⟨a, t, rfl⟩
      have ht : t.length = 10 := by simpa [hat] using hlen
      rw [ih _ (by simpa using hmode) hrest (by simp [hat, ht])]
      simp only [hat, List.length_cons, ht, List.tail_cons, List.length_append,
        List.length_singleton, List.map_cons, if_pos (by omega : 10 + 1 > 10)]
      have e1 : 10 + (([] : List (List Nat)).length + 1) + fs.length - 11 = fs.length := by
        simp
      have e2 : 10 + 1 + (fs.length + 1) - 11 = fs.length + 1 := by omega
      rw [e1, e2]
      simp
    · rw [ih _ (by simpa using hmode) hrest (by simp [hfull]; omega)]
      simp only [if_neg hfull, List.length_append, List.length_singleton, List.map_cons,
        List.length_cons]
      have e : s.rtmp_frame_queue.length + (([] : List (List Nat)).length + 1) + fs.length - 11
          = s.rtmp_frame_queue.length + (fs.length + 1) - 11 := by
        simp only [List.length_nil]
        omega
      rw [e]
      simp


theorem uniformFrames_valid (ks : List Int) :
    ∀ f ∈ List.map uniformFrame ks, f.length = 640 * 480 * 3 := by
  intro f hf
  obtain ⟨k, _, rfl⟩ := List.mem_map.mp hf
  exact uniformFrame_length k

/-- C1, evaluated on the code: in a queue-mode session with an empty queue,
eleven pushes of valid arrays (no dequeue, no stop in between) leave eleven
entries in the queue, one more than the capacity 10, because the eviction
test is `size() > 10`. -/
theorem queue_holds_eleven_after_eleven_pushes :
    (pushAll (List.map uniformFrame [1, 2, 3, 4, 5, 6, 7, 8, 9, 10, 11])
      queueSession).rtmp_frame_queue.length = 11 := by
  rw [pushAll_queue _ _ rfl (uniformFrames_valid _) (by simp [queueSession])]
  simp [queueSession]

/-- C2, evaluated on the code: fifteen pushes of valid arrays onto the empty
queue of a queue-mode session leave eleven entries, pushes #5 to #15 in push
order; push #5 survives and only the oldest four are evicted. -/
theorem queue_after_fifteen_pushes :
    (pushAll (List.map uniformFrame [1, 2, 3, 4, 5, 6, 7, 8, 9, 10, 11, 12, 13, 14, 15])
      queueSession).rtmp_frame_queue
      = List.map (fun k => (uniformFrame k).map toUint8)
          [5, 6, 7, 8, 9, 10, 11, 12, 13, 14, 15]
    ∧ (pushAll (List.map uniformFrame [1, 2, 3, 4, 5, 6, 7, 8, 9, 10, 11, 12, 13, 14, 15])
      queueSession).rtmp_frame_queue.length = 11 := by
  rw [pushAll_queue _ _ rfl (uniformFrames_valid _) (by simp [queueSession])]
  simp [queueSession]

/-- C3, counterexample: in queue mode, an array of exactly `640 * 480 * 3`
bytes whose elements `GetByteArrayElements` fails to deliver is rejected and
the statics are left as they were. -/
theorem push_rejected_when_elements_unavailable :
    queueSession.use_rtmp_frames = true
    ∧ ((uniformFrame 0).length : Int) = 640 * 480 * 3
    ∧ pushRTMPFrame (uniformFrame 0) false queueSession = (queueSession, false) := by
  refine ⟨rfl, ?_, ?_⟩
  · rw [uniformFrame_length]; norm_num
  · simp [pushRTMPFrame, uniformFrame_length, queueSession]

/-- C3, amended: `pushRTMPFrame` returns false and leaves every static
unchanged when the session is not in queue mode, or the array length is not
`640 * 480 * 3`, or `GetByteArrayElements` delivers no elements; an array of
exactly `640 * 480 * 3` bytes whose elements are delivered, pushed in queue
mode, is accepted and becomes the newest queue entry (behind the old
entries, the oldest of which is dropped when there were more than ten), all
other statics unchanged. -/
theorem pushRTMPFrame_reject_accept (frame_data : List Int) (elements_ok : Bool)
    (s : Session) :
    ((s.use_rtmp_frames = false ∨ frame_data.length ≠ 640 * 480 * 3 ∨ elements_ok = false) →
      pushRTMPFrame frame_data elements_ok s = (s, false))
    ∧ (s.use_rtmp_frames = true → frame_data.length = 640 * 480 * 3 → elements_ok = true →
      pushRTMPFrame frame_data elements_ok s =
        ({ s with rtmp_frame_queue :=
            (if s.rtmp_frame_queue.length > 10 then s.rtmp_frame_queue.tail
              else s.rtmp_frame_queue) ++ [frame_data.map toUint8] }, true)) := by
  constructor
  · intro h
    unfold pushRTMPFrame
    dsimp only
    rcases h with h | h | h
    · simp [h]
    · have h' : ¬ ((frame_data.length : Int) = 640 * 480 * 3) := by
        intro hc
        apply h
        have : (frame_data.length : Int) = ((640 * 480 * 3 : Nat) : Int) := by
          rw [hc]; norm_num
        exact_mod_cast this
      norm_num at h'
      simp [h']
    · simp [h]
  · intro hmode hlen hok
    subst hok
    exact pushRTMPFrame_accept frame_data s hmode hlen

/-- C3, witness for `pushRTMPFrame_reject_accept`: a valid array pushed onto the
empty queue of a queue-mode session is accepted. -/
theorem pushRTMPFrame_reject_accept_witness :
    (pushRTMPFrame (uniformFrame 7) true queueSession).2 = true := by
  rw [(pushRTMPFrame_reject_accept (uniformFrame 7) true queueSession).2 rfl
    (uniformFrame_length 7) rfl]

/-! ## Loops -/

/-- Invariant rule for the iterations of a `for` loop: an invariant that
every iteration in range re-establishes makes the loop return, with the
invariant at the final index. -/
theorem forLoopFrom_inv {σ : Type} (body : Int → σ → Except Fault σ) (I : Int → σ → Prop) :
    ∀ (n : Nat) (i : Int) (s : σ), I i s →
      (∀ j t, i ≤ j → j < i + n → I j t → ∃ t', body j t = .ok t' ∧ I (j + 1) t') →
      ∃ s', forLoopFrom body n i s = .ok s' ∧ I (i + n) s' := by
  intro n
  induction n with
  | zero =>
    intro i s hI _
    exact ⟨s, rfl, by simpa using hI⟩
  | succ n ih =>
    intro i s hI hstep
    obtain ⟨t, hbody, hIt⟩ := hstep i s (le_refl i) (by push_cast; omega) hI
    obtain ⟨s', hrun, hI'⟩ := ih (i + 1) t hIt (fun j u hj hj' hIu =>
      hstep j u (by omega) (by push_cast; omega) hIu)
    refine ⟨s', ?_, ?_⟩
    · simp only [forLoopFrom, hbody]
      exact hrun
    · have e : i + ((n + 1 : Nat) : Int) = i + 1 + (n : Int) := by push_cast; omega
      rw [e]
      exact hI'

/-- Invariant rule for `for (int i = lo; i < hi; i++)` with `lo <= hi`. -/
theorem forLoop_inv {σ : Type} (lo hi : Int) (body : Int → σ → Except Fault σ)
    (I : Int → σ → Prop) (s : σ) (hle : lo ≤ hi) (h0 : I lo s)
    (hstep : ∀ j t, lo ≤ j → j < hi → I j t → ∃ t', body j t = .ok t' ∧ I (j + 1) t') :
    ∃ s', forLoop lo hi body s = .ok s' ∧ I hi s' := by
  have e : lo + (((hi - lo).toNat : Nat) : Int) = hi := by omega
  obtain ⟨s', hrun, hI⟩ := forLoopFrom_inv body I (hi - lo).toNat lo s h0
    (fun j t hj hj' hIt => hstep j t hj (by omega) hIt)
  exact ⟨s', hrun, by rw [e] at hI; exact hI⟩

/-- A loop whose upper bound is not above its lower bound does nothing. -/
theorem forLoop_empty {σ : Type} (lo hi : Int) (body : Int → σ → Except Fault σ) (s : σ)
    (h : hi ≤ lo) : forLoop lo hi body s = .ok s := by
  have e : (hi - lo).toNat = 0 := by omega
  simp [forLoop, e, forLoopFrom]

/-- A loop whose body, inside the range, returns and keeps a property of the
state, returns and keeps it. -/
theorem forLoop_preserves {σ : Type} (lo hi : Int) (body : Int → σ → Except Fault σ)
    (P : σ → Prop) (s : σ) (h0 : P s)
    (hstep : ∀ j t, lo ≤ j → j < hi → P t → ∃ t', body j t = .ok t' ∧ P t') :
    ∃ s', forLoop lo hi body s = .ok s' ∧ P s' := by
  by_cases hle : lo ≤ hi
  · exact forLoop_inv lo hi body (fun _ t => P t) s hle h0 hstep
  · exact ⟨s, forLoop_empty lo hi body s (by omega), h0⟩

/-! ## Pixel offsets -/

/-- The linear index of a pixel inside the frame is inside `[0, w*h)`. -/
theorem pixel_index_bound (w h x y : Int) (hx : 0 ≤ x) (hxw : x < w) (hy : 0 ≤ y) (hyh : y < h) :
    0 ≤ y * w + x ∧ y * w + x < w * h := by
  have hw : 0 ≤ w := by omega
  have h1 : 0 ≤ y * w := Int.mul_nonneg hy hw
  have h2 : (y + 1) * w ≤ h * w := Int.mul_le_mul_of_nonneg_right (by omega) hw
  have h3 : (y + 1) * w = y * w + w := by ring
  have h4 : h * w = w * h := by ring
  constructor <;> omega

/-- Two pixels inside a row-major frame with the same linear index are the
same pixel. -/
theorem pixel_index_inj (w x y x' y' : Int) (hx : 0 ≤ x) (hxw : x < w)
    (hx' : 0 ≤ x') (hxw' : x' < w) (h : y * w + x = y' * w + x') : x = x' ∧ y = y' := by
  have hw : 0 < w := by omega
  have e1 : (y * w + x) % w = x := by
    rw [Int.add_comm, Int.add_mul_emod_self]
    exact Int.emod_eq_of_lt hx hxw
  have e2 : (y' * w + x') % w = x' := by
    rw [Int.add_comm, Int.add_mul_emod_self]
    exact Int.emod_eq_of_lt hx' hxw'
  have hxx : x = x' := by rw [← e1, ← e2, h]
  refine ⟨hxx, ?_⟩
  have h5 : y * w = y' * w := by omega
  exact Int.eq_of_mul_eq_mul_right (by omega) h5

/-! ## setPixel -/

/-- Store inside the buffer. -/
theorem store_ok (buffer : List Nat) (offset : Int) (v : Nat)
    (h0 : 0 ≤ offset) (h1 : offset < (buffer.length : Int)) :
    store buffer offset v = .ok (buffer.set offset.toNat v) := by
  simp [store, h0, h1]

/-- The function `setPixel` at a pixel inside the frame performs its three
stores. -/
theorem setPixel_inside (g : FrameGenerator) (buffer : List Nat) (x y : Int) (r gr b : Nat)
    (hlen : (buffer.length : Int) = g.frame_width * g.frame_height * 3)
    (hx : 0 ≤ x) (hxw : x < g.frame_width) (hy : 0 ≤ y) (hyh : y < g.frame_height) :
    g.setPixel buffer x y r gr b =
      .ok (((buffer.set ((y * g.frame_width + x) * 3).toNat r).set
        (((y * g.frame_width + x) * 3).toNat + 1) gr).set
        (((y * g.frame_width + x) * 3).toNat + 2) b) := by
  obtain ⟨hp0, hp1⟩ := pixel_index_bound g.frame_width g.frame_height x y hx hxw hy hyh
  have hcond : x ≥ 0 ∧ x < g.frame_width ∧ y ≥ 0 ∧ y < g.frame_height := ⟨hx, hxw, hy, hyh⟩
  have e1 : ((y * g.frame_width + x) * 3 + 1).toNat = ((y * g.frame_width + x) * 3).toNat + 1 := by
    omega
  have e2 : ((y * g.frame_width + x) * 3 + 2).toNat = ((y * g.frame_width + x) * 3).toNat + 2 := by
    omega
  have s1 := store_ok buffer ((y * g.frame_width + x) * 3) r (by omega) (by omega)
  have s2 := store_ok (buffer.set ((y * g.frame_width + x) * 3).toNat r)
    ((y * g.frame_width + x) * 3 + 1) gr (by omega) (by simp only [List.length_set]; omega)
  have s3 := store_ok ((buffer.set ((y * g.frame_width + x) * 3).toNat r).set
    ((y * g.frame_width + x) * 3 + 1).toNat gr)
    ((y * g.frame_width + x) * 3 + 2) b (by omega) (by simp only [List.length_set]; omega)
  rw [e1] at s2 s3
  rw [e2] at s3
  unfold FrameGenerator.setPixel
  rw [if_pos hcond]
  simp only [bind, Except.bind, s1, s2, s3]

/-- The function `setPixel` at a pixel outside the frame returns the buffer
as it was. -/
theorem setPixel_outside (g : FrameGenerator) (buffer : List Nat) (x y : Int) (r gr b : Nat)
    (hout : ¬ (0 ≤ x ∧ x < g.frame_width ∧ 0 ≤ y ∧ y < g.frame_height)) :
    g.setPixel buffer x y r gr b = .ok buffer := by
  unfold FrameGenerator.setPixel
  rw [if_neg hout]

/-- On a buffer of `w*h*3` bytes `setPixel` returns, for every `(x, y)`, a
buffer of the same length. -/
theorem setPixel_length (g : FrameGenerator) (buffer : List Nat) (x y : Int) (r gr b : Nat)
    (hlen : (buffer.length : Int) = g.frame_width * g.frame_height * 3) :
    ∃ buffer', g.setPixel buffer x y r gr b = .ok buffer' ∧ buffer'.length = buffer.length := by
  by_cases hin : 0 ≤ x ∧ x < g.frame_width ∧ 0 ≤ y ∧ y < g.frame_height
  · obtain ⟨hx, hxw, hy, hyh⟩ := hin
    exact ⟨_, setPixel_inside g buffer x y r gr b hlen hx hxw hy hyh, by simp⟩
  · exact ⟨buffer, setPixel_outside g buffer x y r gr b hin, rfl⟩

/-! ## Reading pixels back -/

/-- Three consecutive stores: the three bytes are the stored ones and every
other position keeps its byte. -/
theorem getElem?_three_sets (buffer : List Nat) (o : Nat) (r gr b : Nat)
    (h : o + 2 < buffer.length) :
    (((buffer.set o r).set (o + 1) gr).set (o + 2) b)[o]? = some r
    ∧ (((buffer.set o r).set (o + 1) gr).set (o + 2) b)[o + 1]? = some gr
    ∧ (((buffer.set o r).set (o + 1) gr).set (o + 2) b)[o + 2]? = some b
    ∧ ∀ i, i ≠ o → i ≠ o + 1 → i ≠ o + 2 →
        (((buffer.set o r).set (o + 1) gr).set (o + 2) b)[i]? = buffer[i]? := by
  refine ⟨?_, ?_, ?_, ?_⟩
  · rw [List.getElem?_set_ne (by omega), List.getElem?_set_ne (by omega),
      List.getElem?_set_self (by omega)]
  · rw [List.getElem?_set_ne (by omega),
      List.getElem?_set_self (by simp only [List.length_set]; omega)]
  · rw [List.getElem?_set_self (by simp only [List.length_set]; omega)]
  · intro i h0 h1 h2
    rw [List.getElem?_set_ne (by omega), List.getElem?_set_ne (by omega),
      List.getElem?_set_ne (by omega)]

/-- After `setPixel` at a pixel inside the frame, that pixel holds the
colour written. -/
theorem pixelAt_setPixel_same (g : FrameGenerator) (buffer buffer' : List Nat) (x y : Int)
    (r gr b : Nat)
    (hlen : (buffer.length : Int) = g.frame_width * g.frame_height * 3)
    (hx : 0 ≤ x) (hxw : x < g.frame_width) (hy : 0 ≤ y) (hyh : y < g.frame_height)
    (hset : g.setPixel buffer x y r gr b = .ok buffer') :
    pixelAt buffer' g.frame_width x y = some (r, gr, b) := by
  obtain ⟨hp0, hp1⟩ := pixel_index_bound g.frame_width g.frame_height x y hx hxw hy hyh
  rw [setPixel_inside g buffer x y r gr b hlen hx hxw hy hyh] at hset
  have hb : buffer' = _ := (Except.ok.inj hset).symm
  subst hb
  obtain ⟨g0, g1, g2, _⟩ := getElem?_three_sets buffer ((y * g.frame_width + x) * 3).toNat
    r gr b (by omega)
  simp only [pixelAt, g0, g1, g2]

/-- After `setPixel` at a pixel inside the frame, every other pixel of the
frame is as before. -/
theorem pixelAt_setPixel_other (g : FrameGenerator) (buffer buffer' : List Nat) (x y x' y' : Int)
    (r gr b : Nat)
    (hlen : (buffer.length : Int) = g.frame_width * g.frame_height * 3)
    (hx : 0 ≤ x) (hxw : x < g.frame_width) (hy : 0 ≤ y) (hyh : y < g.frame_height)
    (hx' : 0 ≤ x') (hxw' : x' < g.frame_width) (hy' : 0 ≤ y') (hyh' : y' < g.frame_height)
    (hne : ¬ (x' = x ∧ y' = y))
    (hset : g.setPixel buffer x y r gr b = .ok buffer') :
    pixelAt buffer' g.frame_width x' y' = pixelAt buffer g.frame_width x' y' := by
  obtain ⟨hp0, hp1⟩ := pixel_index_bound g.frame_width g.frame_height x y hx hxw hy hyh
  obtain ⟨hq0, hq1⟩ := pixel_index_bound g.frame_width g.frame_height x' y' hx' hxw' hy' hyh'
  have hpq : y' * g.frame_width + x' ≠ y * g.frame_width + x := fun hc =>
    hne (pixel_index_inj g.frame_width x' y' x y hx' hxw' hx hxw hc)
  rw [setPixel_inside g buffer x y r gr b hlen hx hxw hy hyh] at hset
  have hb : buffer' = _ := (Except.ok.inj hset).symm
  subst hb
  obtain ⟨_, _, _, hrest⟩ := getElem?_three_sets buffer ((y * g.frame_width + x) * 3).toNat
    r gr b (by omega)
  simp only [pixelAt]
  rw [hrest _ (by omega) (by omega) (by omega), hrest _ (by omega) (by omega) (by omega),
    hrest _ (by omega) (by omega) (by omega)]

/-! ## Filling a frame pixel by pixel -/

/-- Two nested loops over the rows and columns of the frame whose body is a
`setPixel` with colour `c x y` return a buffer of the same length in which
every pixel `(x, y)` of the frame holds `c x y`. -/
theorem fill_frame (g : FrameGenerator) (c : Int → Int → Nat × Nat × Nat)
    (body : Int → Int → List Nat → Except Fault (List Nat))
    (hbody : ∀ y x buf, 0 ≤ x → x < g.frame_width → 0 ≤ y → y < g.frame_height →
      body y x buf = g.setPixel buf x y (c x y).1 (c x y).2.1 (c x y).2.2)
    (buffer : List Nat)
    (hlen : (buffer.length : Int) = g.frame_width * g.frame_height * 3) :
    ∃ buffer',
      forLoop 0 g.frame_height (fun y buf =>
        forLoop 0 g.frame_width (fun x buf => body y x buf) buf) buffer = .ok buffer'
      ∧ buffer'.length = buffer.length
      ∧ ∀ x y, 0 ≤ x → x < g.frame_width → 0 ≤ y → y < g.frame_height →
          pixelAt buffer' g.frame_width x y = some (c x y) := by
  by_cases hh : 0 ≤ g.frame_height
  swap
  · exact ⟨buffer, forLoop_empty _ _ _ _ (by omega), rfl, fun x y _ _ hy hyh => by omega⟩
  obtain ⟨buffer', hrun, hl, hpix⟩ := forLoop_inv 0 g.frame_height
    (fun y buf => forLoop 0 g.frame_width (fun x buf => body y x buf) buf)
    (fun y buf => buf.length = buffer.length ∧
      ∀ x' y', 0 ≤ x' → x' < g.frame_width → 0 ≤ y' → y' < y →
        pixelAt buf g.frame_width x' y' = some (c x' y'))
    buffer hh ⟨rfl, fun x' y' _ _ h1 h2 => by omega⟩
    (by
      intro y buf hy hyh ⟨hbl, hdone⟩
      by_cases hw : 0 ≤ g.frame_width
      swap
      · exact ⟨buf, forLoop_empty _ _ _ _ (by omega), hbl, fun x' y' h1 h2 _ _ => by omega⟩
      obtain ⟨buf', hrow, hl', hrowpix⟩ := forLoop_inv 0 g.frame_width
        (fun x buf => body y x buf)
        (fun x buf => buf.length = buffer.length ∧
          ∀ x' y', 0 ≤ x' → x' < g.frame_width → 0 ≤ y' → (y' < y ∨ (y' = y ∧ x' < x)) →
            pixelAt buf g.frame_width x' y' = some (c x' y'))
        buf hw ⟨hbl, fun x' y' h1 h2 h3 h4 => hdone x' y' h1 h2 h3 (by omega)⟩
        (by
          intro x b hx hxw ⟨hbl', hdone'⟩
          have hlb : (b.length : Int) = g.frame_width * g.frame_height * 3 := by
            rw [hbl']; exact hlen
          obtain ⟨b', hset, hlb'⟩ := setPixel_length g b x y (c x y).1 (c x y).2.1 (c x y).2.2 hlb
          refine ⟨b', ?_, ?_, ?_⟩
          · show body y x b = Except.ok b'
            rw [hbody y x b hx hxw hy hyh]; exact hset
          · rw [hlb', hbl']
          · intro x' y' h1 h2 h3 h4
            by_cases hsame : x' = x ∧ y' = y
            · obtain ⟨rfl, rfl⟩ := hsame
              exact pixelAt_setPixel_same g b b' x' y' _ _ _ hlb hx hxw hy hyh hset
            · rw [pixelAt_setPixel_other g b b' x y x' y' _ _ _ hlb hx hxw hy hyh h1 h2 h3
                (by omega) hsame hset]
              exact hdone' x' y' h1 h2 h3 (by omega))
      refine ⟨buf', hrow, hl', ?_⟩
      intro x' y' h1 h2 h3 h4
      exact hrowpix x' y' h1 h2 h3 (by omega))
  exact ⟨buffer', hrun, hl, hpix⟩

/-! ## TestPattern -/

/-- The function `generateTestPattern` returns on every buffer of `w*h*3`
bytes, and every pixel of the frame then holds the colour the code
computes for it. -/
theorem generateTestPattern_pixels (g : FrameGenerator) (buffer : List Nat)
    (hlen : (buffer.length : Int) = g.frame_width * g.frame_height * 3) :
    ∃ buffer', g.generateTestPattern buffer = .ok buffer'
      ∧ buffer'.length = buffer.length
      ∧ ∀ x y, 0 ≤ x → x < g.frame_width → 0 ≤ y → y < g.frame_height →
          pixelAt buffer' g.frame_width x y =
            some (toUint8 (Int.tmod (x + y + toInt32 g.frame_counter) 255),
              toUint8 (Int.tmod (Int.tmod (x + y + toInt32 g.frame_counter) 255 + 85) 255),
              toUint8 (Int.tmod (Int.tmod (x + y + toInt32 g.frame_counter) 255 + 170) 255)) :=
  fill_frame g
    (fun x y => (toUint8 (Int.tmod (x + y + toInt32 g.frame_counter) 255),
      toUint8 (Int.tmod (Int.tmod (x + y + toInt32 g.frame_counter) 255 + 85) 255),
      toUint8 (Int.tmod (Int.tmod (x + y + toInt32 g.frame_counter) 255 + 170) 255)))
    (fun y x buf =>
      g.setPixel buf x y (toUint8 (Int.tmod (x + y + toInt32 g.frame_counter) 255))
        (toUint8 (Int.tmod (Int.tmod (x + y + toInt32 g.frame_counter) 255 + 85) 255))
        (toUint8 (Int.tmod (Int.tmod (x + y + toInt32 g.frame_counter) 255 + 170) 255)))
    (fun _ _ _ _ _ _ _ => rfl) buffer hlen

/-- A counter below `2^31` survives `static_cast<int>`. -/
theorem toInt32_of_lt (n : Nat) (h : n < 2 ^ 31) : toInt32 n = (n : Int) := by
  have h1 : n % 2 ^ 32 = n := Nat.mod_eq_of_lt (by omega)
  unfold toInt32
  rw [h1, if_pos h]

/-- When `x + y + frame_counter` stays below `2^31`, the colour the code
computes is the one the specification prescribes. -/
theorem testPattern_value_eq_spec (x y : Int) (n : Nat) (hx : 0 ≤ x) (hy : 0 ≤ y)
    (hsum : x + y + (n : Int) < 2 ^ 31) :
    (toUint8 (Int.tmod (x + y + toInt32 n) 255),
      toUint8 (Int.tmod (Int.tmod (x + y + toInt32 n) 255 + 85) 255),
      toUint8 (Int.tmod (Int.tmod (x + y + toInt32 n) 255 + 170) 255))
      = specTestPatternPixel x y n := by
  have hn : n < 2 ^ 31 := by
    have : (n : Int) < 2 ^ 31 := by omega
    exact_mod_cast this
  rw [toInt32_of_lt n hn]
  have h1 : Int.tmod (x + y + (n : Int)) 255 = (x + y + (n : Int)) % 255 :=
    Int.tmod_eq_emod (by omega) (by norm_num)
  rw [h1]
  have hv0 : 0 ≤ (x + y + (n : Int)) % 255 := Int.emod_nonneg _ (by norm_num)
  have hv1 : (x + y + (n : Int)) % 255 < 255 := Int.emod_lt_of_pos _ (by norm_num)
  have h2 : Int.tmod ((x + y + (n : Int)) % 255 + 85) 255 = ((x + y + (n : Int)) % 255 + 85) % 255 :=
    Int.tmod_eq_emod (by omega) (by norm_num)
  have h3 : Int.tmod ((x + y + (n : Int)) % 255 + 170) 255
      = ((x + y + (n : Int)) % 255 + 170) % 255 :=
    Int.tmod_eq_emod (by omega) (by norm_num)
  rw [h2, h3]
  unfold specTestPatternPixel toUint8
  simp only []
  generalize (x + y + (n : Int)) % 255 = v at hv0 hv1
  have e1 : v % 256 = v := by omega
  have e2 : (v + 85) % 255 % 256 = (v + 85) % 255 := by omega
  have e3 : (v + 170) % 255 % 256 = (v + 170) % 255 := by omega
  rw [e1, e2, e3]

/-- C4, counterexample: with frame counter `2^32` the `static_cast<int>`
yields 0, so on a 1x1 frame the code writes (0, 85, 170) at pixel (0,0),
while `(0 + 0 + 2^32) mod 255 = 1` prescribes (1, 86, 171). -/
theorem testPattern_differs_at_counter_two_pow_32 :
    FrameGenerator.generateTestPattern
        { frame_width := 1, frame_height := 1, frame_size := 3,
          current_pattern := TEST_PATTERN, frame_counter := 2 ^ 32 } [9, 9, 9]
      = .ok [0, 85, 170]
    ∧ pixelAt [0, 85, 170] 1 0 0 = some (0, 85, 170)
    ∧ specTestPatternPixel 0 0 (2 ^ 32) = (1, 86, 171) := by
  decide

/-- C4, amended: for every geometry, every buffer of `width*height*3` bytes
and every frame counter, `generateTestPattern` returns, and at every pixel
`(x, y)` of the frame for which `x + y + frame_counter < 2^31` it has written
red `v`, green `(v+85) mod 255`, blue `(v+170) mod 255` with
`v = (x + y + frame_counter) mod 255`. -/
theorem generateTestPattern_matches_spec (g : FrameGenerator) (buffer : List Nat)
    (hlen : (buffer.length : Int) = g.frame_width * g.frame_height * 3) :
    ∃ buffer', g.generateTestPattern buffer = .ok buffer'
      ∧ ∀ x y, 0 ≤ x → x < g.frame_width → 0 ≤ y → y < g.frame_height →
          x + y + (g.frame_counter : Int) < 2 ^ 31 →
          pixelAt buffer' g.frame_width x y = some (specTestPatternPixel x y g.frame_counter) := by
  obtain ⟨buffer', hrun, _, hpix⟩ := generateTestPattern_pixels g buffer hlen
  refine ⟨buffer', hrun, ?_⟩
  intro x y hx hxw hy hyh hsum
  rw [hpix x y hx hxw hy hyh, testPattern_value_eq_spec x y g.frame_counter hx hy hsum]

/-- C4, witness for `generateTestPattern_matches_spec`: a 2x1 frame at counter
30. -/
theorem generateTestPattern_matches_spec_witness :
    ∃ buffer', FrameGenerator.generateTestPattern
        { frame_width := 2, frame_height := 1, frame_size := 6,
          current_pattern := TEST_PATTERN, frame_counter := 30 } [0, 0, 0, 0, 0, 0]
        = .ok buffer'
      ∧ pixelAt buffer' 2 1 0 = some (31, 116, 201) := by
  obtain ⟨buffer', hrun, hpix⟩ := generateTestPattern_matches_spec
    { frame_width := 2, frame_height := 1, frame_size := 6,
      current_pattern := TEST_PATTERN, frame_counter := 30 } [0, 0, 0, 0, 0, 0] (by decide)
  exact ⟨buffer', hrun, hpix 1 0 (by decide) (by decide) (by decide) (by decide) (by decide)⟩

/-! ## ColorBars -/

/-- Rows 0 to 7 of `colors` exist and are the bar sequence of the
specification. -/
theorem colorsRow_ok (i : Int) (h0 : 0 ≤ i) (h7 : i ≤ 7) :
    ∃ c, FrameGenerator.colorsRow i = .ok c ∧ specBarSequence[i.toNat]? = some c := by
  have hcases : i = 0 ∨ i = 1 ∨ i = 2 ∨ i = 3 ∨ i = 4 ∨ i = 5 ∨ i = 6 ∨ i = 7 := by omega
  rcases hcases with rfl | rfl | rfl | rfl | rfl | rfl | rfl | rfl <;> exact ⟨_, rfl, rfl⟩

/-- For a width of at least 8 the body of the ColorBars loops is a
`setPixel` with the colour the specification prescribes. -/
theorem colorBars_body (g : FrameGenerator) (hw : 8 ≤ g.frame_width) (x y : Int)
    (buf : List Nat) (hx : 0 ≤ x) :
    ∃ c, specColorBarsPixel g.frame_width x = some c
      ∧ (do
          let bar_index ← intDiv x (Int.tdiv g.frame_width 8)
          let bar_index := if bar_index ≥ 8 then 7 else bar_index
          let c ← FrameGenerator.colorsRow bar_index
          g.setPixel buf x y c.1 c.2.1 c.2.2) = g.setPixel buf x y c.1 c.2.1 c.2.2 := by
  have hbw : Int.tdiv g.frame_width 8 = g.frame_width / 8 :=
    Int.tdiv_eq_ediv (by omega) (by norm_num)
  have hbpos : 1 ≤ g.frame_width / 8 := by omega
  have hq : Int.tdiv x (g.frame_width / 8) = x / (g.frame_width / 8) :=
    Int.tdiv_eq_ediv hx (by omega)
  have hq0 : 0 ≤ x / (g.frame_width / 8) := Int.ediv_nonneg hx (by omega)
  have hidx : (if x / (g.frame_width / 8) ≥ 8 then 7 else x / (g.frame_width / 8))
      = min (x / (g.frame_width / 8)) 7 := by
    split <;> omega
  obtain ⟨c, hrow, hspec⟩ := colorsRow_ok (min (x / (g.frame_width / 8)) 7) (by omega) (by omega)
  refine ⟨c, hspec, ?_⟩
  rw [hbw]
  have hdiv : intDiv x (g.frame_width / 8) = .ok (x / (g.frame_width / 8)) := by
    unfold intDiv
    rw [if_neg (by omega), hq]
  simp only [bind, Except.bind, hdiv, hidx, hrow]

/-- The function `generateColorBars` on a frame at least 8 wide returns a
buffer of the same length whose pixels are the ones the specification
prescribes. -/
theorem generateColorBars_pixels (g : FrameGenerator) (buffer : List Nat)
    (hw : 8 ≤ g.frame_width)
    (hlen : (buffer.length : Int) = g.frame_width * g.frame_height * 3) :
    ∃ buffer', g.generateColorBars buffer = .ok buffer'
      ∧ buffer'.length = buffer.length
      ∧ ∀ x y, 0 ≤ x → x < g.frame_width → 0 ≤ y → y < g.frame_height →
          pixelAt buffer' g.frame_width x y = specColorBarsPixel g.frame_width x := by
  obtain ⟨buffer', hrun, hl, hpix⟩ := fill_frame g
    (fun x _ => (specColorBarsPixel g.frame_width x).getD (0, 0, 0))
    (fun y x buf => do
      let bar_index ← intDiv x (Int.tdiv g.frame_width 8)
      let bar_index := if bar_index ≥ 8 then 7 else bar_index
      let c ← FrameGenerator.colorsRow bar_index
      g.setPixel buf x y c.1 c.2.1 c.2.2)
    (by
      intro y x buf hx _ _ _
      obtain ⟨c, hc, hbody⟩ := colorBars_body g hw x y buf hx
      show _ = g.setPixel buf x y ((specColorBarsPixel g.frame_width x).getD (0, 0, 0)).1
        ((specColorBarsPixel g.frame_width x).getD (0, 0, 0)).2.1
        ((specColorBarsPixel g.frame_width x).getD (0, 0, 0)).2.2
      rw [hc]
      exact hbody)
    buffer hlen
  refine ⟨buffer', hrun, hl, ?_⟩
  intro x y hx hxw hy hyh
  obtain ⟨c, hc, _⟩ := colorBars_body g hw x y buffer hx
  rw [hpix x y hx hxw hy hyh, hc]
  rfl

/-- C5: for every width of at least 8 and every buffer of `width*height*3`
bytes, `generateColorBars` returns, and every pixel `(x, y)` of the frame
holds the colour at index `min (floor (x / floor (width/8))) 7` of White,
Yellow, Cyan, Green, Magenta, Red, Blue, Black; on an 800x1 frame columns 0
to 99 are (255,255,255) and columns 700 to 799 are (0,0,0). -/
theorem generateColorBars_matches_spec :
    (∀ (g : FrameGenerator) (buffer : List Nat), 8 ≤ g.frame_width →
      (buffer.length : Int) = g.frame_width * g.frame_height * 3 →
      ∃ buffer', g.generateColorBars buffer = .ok buffer'
        ∧ ∀ x y, 0 ≤ x → x < g.frame_width → 0 ≤ y → y < g.frame_height →
            ∃ c, specBarSequence[(min (x / (g.frame_width / 8)) 7).toNat]? = some c
              ∧ pixelAt buffer' g.frame_width x y = some c)
    ∧ (∀ (g : FrameGenerator) (buffer : List Nat), g.frame_width = 800 → g.frame_height = 1 →
      buffer.length = 2400 →
      ∃ buffer', g.generateColorBars buffer = .ok buffer'
        ∧ (∀ x : Int, 0 ≤ x → x < 100 → pixelAt buffer' 800 x 0 = some (255, 255, 255))
        ∧ (∀ x : Int, 700 ≤ x → x < 800 → pixelAt buffer' 800 x 0 = some (0, 0, 0))) := by
  constructor
  · intro g buffer hw hlen
    obtain ⟨buffer', hrun, _, hpix⟩ := generateColorBars_pixels g buffer hw hlen
    refine ⟨buffer', hrun, ?_⟩
    intro x y hx hxw hy hyh
    obtain ⟨c, hc, _⟩ := colorBars_body g hw x y buffer hx
    exact ⟨c, hc, by rw [hpix x y hx hxw hy hyh, hc]⟩
  · intro g buffer hw hh hlen
    obtain ⟨buffer', hrun, _, hpix⟩ := generateColorBars_pixels g buffer (by omega)
      (by rw [hw, hh]; omega)
    rw [hw, hh] at hpix
    refine ⟨buffer', hrun, ?_, ?_⟩
    · intro x hx hx'
      rw [hpix x 0 hx (by omega) (by norm_num) (by norm_num)]
      have e : min (x / ((800 : Int) / 8)) 7 = 0 := by norm_num; omega
      simp only [specColorBarsPixel, e]
      rfl
    · intro x hx hx'
      rw [hpix x 0 (by omega) hx' (by norm_num) (by norm_num)]
      have e : min (x / ((800 : Int) / 8)) 7 = 7 := by norm_num; omega
      simp only [specColorBarsPixel, e]
      rfl

/-- C5, witness for `generateColorBars_matches_spec`: an 8x1 frame, whose
column 3 is green. -/
theorem generateColorBars_matches_spec_witness :
    ∃ buffer', FrameGenerator.generateColorBars
        { frame_width := 8, frame_height := 1, frame_size := 24,
          current_pattern := COLOR_BARS, frame_counter := 0 } (List.replicate 24 0)
        = .ok buffer'
      ∧ pixelAt buffer' 8 3 0 = some (0, 255, 0) := by
  obtain ⟨buffer', hrun, hpix⟩ := generateColorBars_matches_spec.1
    { frame_width := 8, frame_height := 1, frame_size := 24,
      current_pattern := COLOR_BARS, frame_counter := 0 } (List.replicate 24 0)
    (by decide) (by decide)
  obtain ⟨c, hc, hp⟩ := hpix 3 0 (by decide) (by decide) (by decide) (by decide)
  have hc' : c = (0, 255, 0) := by
    have : specBarSequence[(min ((3 : Int) / ((8 : Int) / 8)) 7).toNat]? = some (0, 255, 0) := by
      decide
    rw [this] at hc
    exact (Option.some.inj hc).symm
  exact ⟨buffer', hrun, by rw [hp, hc']⟩

/-! ## Every pattern function: return and buffer length -/

/-- Two nested loops whose body returns and keeps the length of a buffer of
`w*h*3` bytes return and keep that length. -/
theorem nested_loops_length (g : FrameGenerator) (lo hi lo' hi' : Int)
    (body : Int → Int → List Nat → Except Fault (List Nat))
    (hbody : ∀ y x buf, (buf.length : Int) = g.frame_width * g.frame_height * 3 →
      ∃ buf', body y x buf = .ok buf' ∧ buf'.length = buf.length)
    (buffer : List Nat)
    (hlen : (buffer.length : Int) = g.frame_width * g.frame_height * 3) :
    ∃ buffer',
      forLoop lo hi (fun y buf => forLoop lo' hi' (fun x buf => body y x buf) buf) buffer
        = .ok buffer'
      ∧ buffer'.length = buffer.length := by
  apply forLoop_preserves lo hi _ (fun buf => buf.length = buffer.length) buffer rfl
  intro y buf _ _ hbuf
  apply forLoop_preserves lo' hi' _ (fun b => b.length = buffer.length) buf hbuf
  intro x b _ _ hb
  obtain ⟨b', hrun, hl⟩ := hbody y x b (by rw [hb]; exact hlen)
  exact ⟨b', hrun, by rw [hl, hb]⟩

theorem generateImageFile_length (g : FrameGenerator) (buffer : List Nat)
    (hlen : (buffer.length : Int) = g.frame_width * g.frame_height * 3) :
    ∃ buffer', g.generateImageFile buffer = .ok buffer' ∧ buffer'.length = buffer.length :=
  nested_loops_length g 0 g.frame_height 0 g.frame_width
    (fun y x buf => g.setPixel buf x y
      (if (Int.tmod (Int.tdiv x 32 + Int.tdiv y 32) 2 == 0) = true then 255 else 64)
      (if (Int.tmod (Int.tdiv x 32 + Int.tdiv y 32) 2 == 0) = true then 255 else 64)
      (if (Int.tmod (Int.tdiv x 32 + Int.tdiv y 32) 2 == 0) = true then 255 else 64))
    (fun y x buf hb => setPixel_length g buf x y _ _ _ hb) buffer hlen

theorem memsetZero_length (buffer : List Nat) (n : Nat) (h : n = buffer.length) :
    ∃ buffer', memsetZero buffer n = .ok buffer' ∧ buffer'.length = buffer.length := by
  refine ⟨List.replicate n 0 ++ buffer.drop n, ?_, ?_⟩
  · unfold memsetZero
    rw [if_pos (by omega)]
  · simp [h]

theorem generateVideoFile_length (env : TimeEnv) (g : FrameGenerator) (buffer : List Nat)
    (hlen : (buffer.length : Int) = g.frame_width * g.frame_height * 3)
    (hsize : g.frame_size = buffer.length) :
    ∃ buffer', g.generateVideoFile env buffer = .ok buffer' ∧ buffer'.length = buffer.length := by
  obtain ⟨cleared, hclear, hcl⟩ := memsetZero_length buffer g.frame_size hsize
  obtain ⟨buffer', hrun, hl⟩ := nested_loops_length g 0 g.frame_height 0 g.frame_width
    (fun y x buf =>
      match env.disk ((x - (Int.tdiv g.frame_width 2 + env.orbit_dx))
          * (x - (Int.tdiv g.frame_width 2 + env.orbit_dx))
          + (y - (Int.tdiv g.frame_height 2 + env.orbit_dy))
          * (y - (Int.tdiv g.frame_height 2 + env.orbit_dy))) with
      | some intensity => g.setPixel buf x y intensity (intensity / 2) (intensity / 4)
      | none => .ok buf)
    (by
      intro y x buf hb
      dsimp only
      split
      · exact setPixel_length g buf x y _ _ _ hb
      · exact ⟨buf, rfl, rfl⟩)
    cleared (by rw [hcl]; exact hlen)
  refine ⟨buffer', ?_, by rw [hl, hcl]⟩
  unfold FrameGenerator.generateVideoFile
  simp only [bind, Except.bind, hclear]
  exact hrun

theorem generateRTMPPlaceholder_length (env : TimeEnv) (g : FrameGenerator) (buffer : List Nat)
    (hlen : (buffer.length : Int) = g.frame_width * g.frame_height * 3) :
    ∃ buffer', g.generateRTMPPlaceholder env buffer = .ok buffer'
      ∧ buffer'.length = buffer.length := by
  obtain ⟨red, hred, hrl⟩ := nested_loops_length g 0 g.frame_height 0 g.frame_width
    (fun y x buf => g.setPixel buf x y env.pulse 0 0)
    (fun y x buf hb => setPixel_length g buf x y _ _ _ hb) buffer hlen
  obtain ⟨buffer', hrun, hl⟩ := nested_loops_length g
    (Int.tdiv g.frame_height 2 - 20) (Int.tdiv g.frame_height 2 + 20)
    (Int.tdiv g.frame_width 2 - 60) (Int.tdiv g.frame_width 2 + 60)
    (fun y x buf =>
      if x ≥ 0 ∧ x < g.frame_width ∧ y ≥ 0 ∧ y < g.frame_height then
        if (Int.tmod (Int.tdiv (x - Int.tdiv g.frame_width 2 + 60) 30) 2 == 0) = true
            ∧ Int.tmod (y - Int.tdiv g.frame_height 2 + 20) 10 < 5 then
          g.setPixel buf x y 255 255 255
        else .ok buf
      else .ok buf)
    (by
      intro y x buf hb
      dsimp only
      split
      · split
        · exact setPixel_length g buf x y _ _ _ hb
        · exact ⟨buf, rfl, rfl⟩
      · exact ⟨buf, rfl, rfl⟩)
    red (by rw [hrl]; exact hlen)
  refine ⟨buffer', ?_, by rw [hl, hrl]⟩
  unfold FrameGenerator.generateRTMPPlaceholder
  simp only [bind, Except.bind, hred]
  exact hrun

/-- ColorBars on a frame with no pixel: the loops do not run. -/
theorem generateColorBars_no_pixel (g : FrameGenerator) (buffer : List Nat)
    (h : g.frame_width ≤ 0 ∨ g.frame_height ≤ 0) :
    g.generateColorBars buffer = .ok buffer := by
  unfold FrameGenerator.generateColorBars
  dsimp only
  rcases h with h | h
  · obtain ⟨buffer', hrun, hb⟩ := forLoop_preserves 0 g.frame_height
      (fun y buffer => forLoop 0 g.frame_width (fun x buffer => do
        let bar_index ← intDiv x (Int.tdiv g.frame_width 8)
        let bar_index := if bar_index ≥ 8 then 7 else bar_index
        let c ← FrameGenerator.colorsRow bar_index
        g.setPixel buffer x y c.1 c.2.1 c.2.2) buffer)
      (fun b => b = buffer) buffer rfl
      (fun y b _ _ hb => ⟨b, forLoop_empty _ _ _ _ (by omega), hb⟩)
    rw [hrun, hb]
  · exact forLoop_empty _ _ _ _ (by omega)

/-- ColorBars on a frame 1 to 7 pixels wide with at least one row: the bar
width is 0 and the first pixel divides by it. -/
theorem generateColorBars_narrow (g : FrameGenerator) (buffer : List Nat)
    (hw1 : 1 ≤ g.frame_width) (hw7 : g.frame_width ≤ 7) (hh : 1 ≤ g.frame_height) :
    g.generateColorBars buffer = .error .divisionByZero := by
  obtain ⟨n, hn⟩ : ∃ n, (g.frame_height - 0).toNat = n + 1 :=
    ⟨(g.frame_height - 0).toNat - 1, by omega⟩
  obtain ⟨m, hm⟩ : ∃ m, (g.frame_width - 0).toNat = m + 1 :=
    ⟨(g.frame_width - 0).toNat - 1, by omega⟩
  have hbw : Int.tdiv g.frame_width 8 = 0 := by
    rw [Int.tdiv_eq_ediv (by omega) (by norm_num)]
    omega
  unfold FrameGenerator.generateColorBars
  simp only [forLoop, hn, hm, forLoopFrom, hbw, intDiv, if_true, bind, Except.bind]

/-- The function `generateFrame` returns, with a buffer of unchanged length
and the counter advanced modulo `2^64`, for every pattern except ColorBars on
a frame 1 to 7 pixels wide that has a row. -/
theorem generateFrame_returns (env : TimeEnv) (g : FrameGenerator) (buffer : List Nat)
    (hlen : (buffer.length : Int) = g.frame_width * g.frame_height * 3)
    (hsize : g.frame_size = buffer.length)
    (hok : g.current_pattern ≠ COLOR_BARS ∨ 8 ≤ g.frame_width ∨ g.frame_width ≤ 0
      ∨ g.frame_height ≤ 0) :
    ∃ buffer', g.generateFrame env buffer
        = .ok ({ g with frame_counter := (g.frame_counter + 1) % 2 ^ 64 }, buffer')
      ∧ buffer'.length = buffer.length := by
  have hrender : ∃ buffer', FrameGenerator.renderPattern env g buffer = .ok buffer'
      ∧ buffer'.length = buffer.length := by
    unfold FrameGenerator.renderPattern
    split_ifs with h0 h1 h2 h3 h4
    · obtain ⟨b, hb, hl, _⟩ := generateTestPattern_pixels g buffer hlen
      exact ⟨b, hb, hl⟩
    · rcases hok with hne | hw | hz
      · exact absurd h1 hne
      · obtain ⟨b, hb, hl, _⟩ := generateColorBars_pixels g buffer hw hlen
        exact ⟨b, hb, hl⟩
      · exact ⟨buffer, generateColorBars_no_pixel g buffer hz, rfl⟩
    · exact generateImageFile_length g buffer hlen
    · exact generateVideoFile_length env g buffer hlen hsize
    · exact generateRTMPPlaceholder_length env g buffer hlen
    · obtain ⟨b, hb, hl, _⟩ := generateTestPattern_pixels g buffer hlen
      exact ⟨b, hb, hl⟩
  obtain ⟨buffer', hrun, hl⟩ := hrender
  refine ⟨buffer', ?_, hl⟩
  unfold FrameGenerator.generateFrame
  simp only [bind, Except.bind, hrun]

/-- The function `generateFrame` on ColorBars with a frame 1 to 7 pixels
wide that has a row faults. -/
theorem generateFrame_narrow_colorBars (env : TimeEnv) (g : FrameGenerator) (buffer : List Nat)
    (hp : g.current_pattern = COLOR_BARS)
    (hw1 : 1 ≤ g.frame_width) (hw7 : g.frame_width ≤ 7) (hh : 1 ≤ g.frame_height) :
    g.generateFrame env buffer = .error .divisionByZero := by
  have hrender : FrameGenerator.renderPattern env g buffer = .error .divisionByZero := by
    unfold FrameGenerator.renderPattern
    rw [if_neg (by rw [hp]; decide), if_pos hp]
    exact generateColorBars_narrow g buffer hw1 hw7 hh
  unfold FrameGenerator.generateFrame
  simp only [bind, Except.bind, hrender]

/-! ## Safety of the synthesizer -/

/-- C6, evaluated on the code: `generateFrame` of a ColorBars generator of
geometry 4x1 on a 12-byte buffer does not complete; `bar_width = 4 / 8 = 0`
and the division `x / bar_width` of the first pixel faults. -/
theorem generateFrame_colorBars_4x1_faults (env : TimeEnv) :
    FrameGenerator.generateFrame env (FrameGenerator.new 4 1 COLOR_BARS) (List.replicate 12 0)
      = .error .divisionByZero :=
  generateFrame_narrow_colorBars env (FrameGenerator.new 4 1 COLOR_BARS) (List.replicate 12 0)
    rfl (by decide) (by decide) (by decide)

/-- C7: on a buffer of `width*height*3` bytes, `setPixel` with `(x, y)`
outside the frame returns the buffer unchanged; with `(x, y)` inside it
returns a buffer of the same length in which the bytes at offsets
`3*(y*width+x)`, `+1`, `+2`, all below `width*height*3`, are `r`, `g`, `b`
and every other byte is as before; and `generateFrame`, for every pattern,
leaves the buffer length `width*height*3` whenever it returns, which it does
for every pattern except ColorBars on a frame 1 to 7 pixels wide that has a
row. -/
theorem setPixel_in_bounds_length_kept (g : FrameGenerator) (buffer : List Nat)
    (hlen : (buffer.length : Int) = g.frame_width * g.frame_height * 3) :
    (∀ (x y : Int) (r gr b : Nat),
      ¬ (0 ≤ x ∧ x < g.frame_width ∧ 0 ≤ y ∧ y < g.frame_height) →
      g.setPixel buffer x y r gr b = .ok buffer)
    ∧ (∀ (x y : Int) (r gr b : Nat),
      0 ≤ x → x < g.frame_width → 0 ≤ y → y < g.frame_height →
      0 ≤ 3 * (y * g.frame_width + x)
      ∧ 3 * (y * g.frame_width + x) + 2 < g.frame_width * g.frame_height * 3
      ∧ ∃ buffer', g.setPixel buffer x y r gr b = .ok buffer'
          ∧ buffer'.length = buffer.length
          ∧ buffer'[(3 * (y * g.frame_width + x)).toNat]? = some r
          ∧ buffer'[(3 * (y * g.frame_width + x)).toNat + 1]? = some gr
          ∧ buffer'[(3 * (y * g.frame_width + x)).toNat + 2]? = some b
          ∧ ∀ i : Nat, i ≠ (3 * (y * g.frame_width + x)).toNat →
              i ≠ (3 * (y * g.frame_width + x)).toNat + 1 →
              i ≠ (3 * (y * g.frame_width + x)).toNat + 2 → buffer'[i]? = buffer[i]?)
    ∧ (∀ env : TimeEnv, g.frame_size = buffer.length →
      (∀ g' buffer', g.generateFrame env buffer = .ok (g', buffer') →
        buffer'.length = buffer.length)
      ∧ ((g.current_pattern ≠ COLOR_BARS ∨ 8 ≤ g.frame_width ∨ g.frame_width ≤ 0
          ∨ g.frame_height ≤ 0) →
        ∃ g' buffer', g.generateFrame env buffer = .ok (g', buffer')
          ∧ buffer'.length = buffer.length)) := by
  refine ⟨?_, ?_, ?_⟩
  · intro x y r gr b hout
    exact setPixel_outside g buffer x y r gr b hout
  · intro x y r gr b hx hxw hy hyh
    obtain ⟨hp0, hp1⟩ := pixel_index_bound g.frame_width g.frame_height x y hx hxw hy hyh
    have ho : (3 * (y * g.frame_width + x)).toNat = ((y * g.frame_width + x) * 3).toNat := by
      omega
    obtain ⟨g0, g1, g2, hrest⟩ := getElem?_three_sets buffer
      ((y * g.frame_width + x) * 3).toNat r gr b (by omega)
    refine ⟨by omega, by omega, _, setPixel_inside g buffer x y r gr b hlen hx hxw hy hyh,
      by simp, ?_, ?_, ?_, ?_⟩
    · rw [ho]; exact g0
    · rw [ho]; exact g1
    · rw [ho]; exact g2
    · rw [ho]; exact hrest
  · intro env hsize
    have htotal : (g.current_pattern ≠ COLOR_BARS ∨ 8 ≤ g.frame_width ∨ g.frame_width ≤ 0
        ∨ g.frame_height ≤ 0) →
        ∃ g' buffer', g.generateFrame env buffer = .ok (g', buffer')
          ∧ buffer'.length = buffer.length := by
      intro hok
      obtain ⟨buffer', hrun, hl⟩ := generateFrame_returns env g buffer hlen hsize hok
      exact ⟨_, buffer', hrun, hl⟩
    refine ⟨?_, htotal⟩
    intro g' buffer' hrun
    by_cases hok : g.current_pattern ≠ COLOR_BARS ∨ 8 ≤ g.frame_width ∨ g.frame_width ≤ 0
        ∨ g.frame_height ≤ 0
    · obtain ⟨g'', buffer'', hrun', hl⟩ := htotal hok
      rw [hrun] at hrun'
      have hb : buffer' = buffer'' := (Prod.mk.inj (Except.ok.inj hrun')).2
      rw [hb]; exact hl
    · have hp : g.current_pattern = COLOR_BARS := by
        by_contra hc
        exact hok (Or.inl hc)
      rw [generateFrame_narrow_colorBars env g buffer hp (by omega) (by omega) (by omega)] at hrun
      exact Except.noConfusion hrun

/-- C7, witness for `setPixel_in_bounds_length_kept`: on a 2x1 frame a write at
`(5, 0)` is dropped. -/
theorem setPixel_in_bounds_length_kept_witness :
    FrameGenerator.setPixel (FrameGenerator.new 2 1 TEST_PATTERN) [0, 0, 0, 0, 0, 0] 5 0 1 2 3
      = .ok [0, 0, 0, 0, 0, 0] :=
  (setPixel_in_bounds_length_kept (FrameGenerator.new 2 1 TEST_PATTERN) [0, 0, 0, 0, 0, 0]
    (by decide)).1 5 0 1 2 3 (by decide)

/-! ## The streaming loop -/

theorem blankBuffer_length : blankBuffer.length = 640 * 480 * 3 :=
  List.length_replicate _ _

/-- In synthesizer mode the loop obtains its frame from `generateFrame`,
which returns for the 640x480 synthesizer of a session and advances its
counter. -/
theorem acquireFrame_synth (env : TimeEnv) (s : Session) (frame_buffer : List Nat)
    (g : FrameGenerator) (hmode : s.use_rtmp_frames = false)
    (hgen : s.frame_generator = some g)
    (hgeo : g.frame_width = 640 ∧ g.frame_height = 480 ∧ g.frame_size = 640 * 480 * 3)
    (hbuf : frame_buffer.length = 640 * 480 * 3) :
    ∃ frame_buffer', acquireFrame env s frame_buffer =
        .ok ({ s with
                frame_generator :=
                  some ({ g with frame_counter := (g.frame_counter + 1) % 2 ^ 64 }) },
              frame_buffer', true)
      ∧ frame_buffer'.length = frame_buffer.length := by
  obtain ⟨hw, hh, hs⟩ := hgeo
  obtain ⟨frame_buffer', hrun, hl⟩ := generateFrame_returns env g frame_buffer
    (by rw [hw, hh, hbuf]; norm_num) (by rw [hs, hbuf]) (Or.inr (Or.inl (by omega)))
  refine ⟨frame_buffer', ?_, hl⟩
  unfold acquireFrame
  simp only [hmode, hgen, hrun]
  rfl

/-- In queue mode the loop never faults while obtaining a frame and leaves
the synthesizer pointer alone. -/
theorem acquireFrame_queue (env : TimeEnv) (s : Session) (frame_buffer : List Nat)
    (hmode : s.use_rtmp_frames = true) :
    ∃ s' frame_buffer' frame_ready,
      acquireFrame env s frame_buffer = .ok (s', frame_buffer', frame_ready)
      ∧ s'.frame_generator = s.frame_generator
      ∧ s'.streaming = s.streaming
      ∧ (frame_buffer.length = 640 * 480 * 3 → frame_buffer'.length = 640 * 480 * 3) := by
  unfold acquireFrame
  simp only [hmode, if_true]
  cases hq : s.rtmp_frame_queue with
  | nil => exact ⟨s, frame_buffer, false, rfl, rfl, rfl, fun h => h⟩
  | cons f rest =>
    dsimp only
    by_cases hf : f.length = 640 * 480 * 3
    · rw [if_pos hf]
      refine ⟨_, _, true, rfl, rfl, rfl, fun h => ?_⟩
      rw [List.length_append, List.length_take, List.length_drop, hf, h]
      norm_num
    · rw [if_neg hf]
      exact ⟨_, frame_buffer, false, rfl, rfl, rfl, fun h => h⟩

/-- In queue mode with an empty queue no frame is ready and nothing
changes. -/
theorem acquireFrame_queue_empty (env : TimeEnv) (s : Session) (frame_buffer : List Nat)
    (hmode : s.use_rtmp_frames = true) (hq : s.rtmp_frame_queue = []) :
    acquireFrame env s frame_buffer = .ok (s, frame_buffer, false) := by
  unfold acquireFrame
  simp only [hmode, hq, if_true]

/-- In queue mode with a frame of the right size at the head of the queue,
that frame is removed and copied into the thread buffer. -/
theorem acquireFrame_queue_head (env : TimeEnv) (s : Session) (frame_buffer : List Nat)
    (f : List Nat) (rest : List (List Nat))
    (hmode : s.use_rtmp_frames = true) (hq : s.rtmp_frame_queue = f :: rest)
    (hf : f.length = 640 * 480 * 3) :
    acquireFrame env s frame_buffer =
      .ok ({ s with rtmp_frame_queue := rest },
        f.take (640 * 480 * 3) ++ frame_buffer.drop (640 * 480 * 3), true) := by
  unfold acquireFrame
  simp only [hmode, hq, if_true, hf]

/-- What a loop iteration does after the frame has been obtained. -/
theorem streamingLoopIteration_of_acquire (env : TimeEnv) (wr : WriteResult) (s s1 : Session)
    (frame_buffer frame_buffer' : List Nat) (frame_ready : Bool)
    (hthread : s.streaming_thread = .looping frame_buffer) (hrun : s.streaming = true)
    (hacq : acquireFrame env s frame_buffer = .ok (s1, frame_buffer', frame_ready)) :
    streamingLoopIteration env wr s =
      if frame_ready then
        match wr with
        | .failed errno =>
          if errno ≠ EAGAIN ∧ errno ≠ EWOULDBLOCK then
            .ok { s1 with
              sink_writes := s1.sink_writes ++ [frame_buffer'.take (640 * 480 * 3)]
              streaming_thread := .finished }
          else
            .ok { s1 with
              sink_writes := s1.sink_writes ++ [frame_buffer'.take (640 * 480 * 3)]
              streaming_thread := .looping frame_buffer' }
        | .bytes _ =>
          .ok { s1 with
            sink_writes := s1.sink_writes ++ [frame_buffer'.take (640 * 480 * 3)]
            streaming_thread := .looping frame_buffer' }
      else .ok { s1 with streaming_thread := .looping frame_buffer' } := by
  unfold streamingLoopIteration
  simp only [hthread, hrun, hacq]
  cases frame_ready with
  | false => simp
  | true =>
    cases wr with
    | bytes n => simp
    | failed errno =>
      by_cases hfatal : errno ≠ EAGAIN ∧ errno ≠ EWOULDBLOCK
      · simp [hfatal]
      · simp [hfatal]

/-! ## Consistency is kept by every operation -/

theorem initial_consistent : Session.initial.Consistent :=
  ⟨fun _ h => Option.noConfusion h, fun _ h => ThreadState.noConfusion h⟩

theorem new_640_480_geometry (pattern : Int) :
    (FrameGenerator.new 640 480 pattern).frame_width = 640
    ∧ (FrameGenerator.new 640 480 pattern).frame_height = 480
    ∧ (FrameGenerator.new 640 480 pattern).frame_size = 640 * 480 * 3 :=
  ⟨rfl, rfl, (by decide : toSizeT (640 * 480 * 3) = 640 * 480 * 3)⟩

theorem startFrameStreaming_consistent (pattern : Int) (fill : Nat → Nat) (s s' : Session)
    (r : Bool) (hcons : s.Consistent)
    (h : startFrameStreaming pattern fill s = .ok (s', r)) : s'.Consistent := by
  have hthread : ∀ t : Session, t.Consistent →
      (match t.streaming_thread with
        | .notStarted =>
          (Except.ok
            ({ t with
                streaming_thread := ThreadState.looping ((List.range (640 * 480 * 3)).map fill) },
              true) : Except Fault (Session × Bool))
        | _ => .error .threadTerminate) = .ok (s', r) → s'.Consistent := by
    intro t ht hrun
    split at hrun
    · rw [← (Prod.mk.inj (Except.ok.inj hrun)).1]
      refine ⟨ht.1, fun fb hfb => ?_⟩
      rw [← ThreadState.looping.inj hfb, List.length_map, List.length_range]
    · exact Except.noConfusion hrun
  unfold startFrameStreaming at h
  by_cases h1 : s.v4l2_fd < 0
  · rw [if_pos h1] at h
    rw [← (Prod.mk.inj (Except.ok.inj h)).1]; exact hcons
  rw [if_neg h1] at h
  by_cases h2 : s.streaming = true
  · rw [if_pos h2] at h
    rw [← (Prod.mk.inj (Except.ok.inj h)).1]; exact hcons
  rw [if_neg h2] at h
  by_cases hp : pattern = 4
  · simp only [if_pos hp] at h
    exact hthread { s with use_rtmp_frames := true, streaming := true } ⟨hcons.1, hcons.2⟩ h
  · simp only [if_neg hp] at h
    refine hthread
      { s with
        use_rtmp_frames := false
        frame_generator := some (FrameGenerator.new 640 480 pattern)
        streaming := true } ⟨fun g hg => ?_, hcons.2⟩ h
    rw [← Option.some.inj hg]
    exact new_640_480_geometry pattern

theorem stopFrameStreaming_consistent (s : Session) : (stopFrameStreaming s).1.Consistent :=
  ⟨fun _ h => Option.noConfusion h, fun _ h => ThreadState.noConfusion h⟩

theorem pushRTMPFrame_consistent (frame_data : List Int) (elements_ok : Bool) (s : Session)
    (hcons : s.Consistent) : (pushRTMPFrame frame_data elements_ok s).1.Consistent := by
  unfold pushRTMPFrame
  dsimp only
  split_ifs <;> exact hcons

theorem streamingLoopIteration_consistent (env : TimeEnv) (wr : WriteResult) (s s' : Session)
    (hcons : s.Consistent) (h : streamingLoopIteration env wr s = .ok s') : s'.Consistent := by
  cases hthread : s.streaming_thread with
  | notStarted =>
    unfold streamingLoopIteration at h
    simp only [hthread] at h
    rw [← Except.ok.inj h]; exact hcons
  | finished =>
    unfold streamingLoopIteration at h
    simp only [hthread] at h
    rw [← Except.ok.inj h]; exact hcons
  | looping fb =>
    cases hrun : s.streaming with
    | false =>
      unfold streamingLoopIteration at h
      simp only [hthread, hrun] at h
      rw [← Except.ok.inj h]
      exact ⟨hcons.1, fun _ hf => ThreadState.noConfusion hf⟩
    | true =>
      have hbuf : fb.length = 640 * 480 * 3 := hcons.2 fb hthread
      have hacq : ∃ s1 fb1 ready, acquireFrame env s fb = .ok (s1, fb1, ready)
          ∧ fb1.length = 640 * 480 * 3
          ∧ (∀ g, s1.frame_generator = some g →
              g.frame_width = 640 ∧ g.frame_height = 480 ∧ g.frame_size = 640 * 480 * 3) := by
        cases hmode : s.use_rtmp_frames with
        | true =>
          obtain ⟨s1, fb1, ready, ha, hgen, _, hl⟩ := acquireFrame_queue env s fb hmode
          exact ⟨s1, fb1, ready, ha, hl hbuf, fun g hg => hcons.1 g (by rw [← hgen]; exact hg)⟩
        | false =>
          cases hgen : s.frame_generator with
          | none =>
            refine ⟨s, fb, false, ?_, hbuf, fun g hg => ?_⟩
            · unfold acquireFrame
              simp only [hmode, hgen]
              rfl
            · rw [hgen] at hg
              exact Option.noConfusion hg
          | some g =>
            obtain ⟨fb1, ha, hl⟩ := acquireFrame_synth env s fb g hmode hgen (hcons.1 g hgen) hbuf
            refine ⟨_, fb1, true, ha, by rw [hl, hbuf], fun g' hg' => ?_⟩
            rw [← Option.some.inj hg']
            exact hcons.1 g hgen
      obtain ⟨s1, fb1, ready, ha, hl, hgeo⟩ := hacq
      rw [streamingLoopIteration_of_acquire env wr s s1 fb fb1 ready hthread hrun ha] at h
      have hloop : ∀ t : Session, t.frame_generator = s1.frame_generator →
          (t.streaming_thread = .looping fb1 ∨ t.streaming_thread = .finished) →
          t.Consistent := by
        intro t hg ht
        refine ⟨fun g hg' => hgeo g (by rw [← hg]; exact hg'), fun fb' hfb' => ?_⟩
        rcases ht with ht | ht
        · rw [ht] at hfb'
          rw [← ThreadState.looping.inj hfb']; exact hl
        · rw [ht] at hfb'
          exact ThreadState.noConfusion hfb'
      cases ready with
      | false =>
        rw [← Except.ok.inj h]
        exact hloop _ rfl (Or.inl rfl)
      | true =>
        cases wr with
        | bytes n =>
          rw [← Except.ok.inj h]
          exact hloop _ rfl (Or.inl rfl)
        | failed errno =>
          by_cases hfatal : errno ≠ EAGAIN ∧ errno ≠ EWOULDBLOCK
          · simp only [if_true, if_pos hfatal] at h
            rw [← Except.ok.inj h]
            exact hloop _ rfl (Or.inr rfl)
          · simp only [if_true, if_neg hfatal] at h
            rw [← Except.ok.inj h]
            exact hloop _ rfl (Or.inl rfl)

/-- In a consistent session the loop always obtains its frame without a
fault; the `streaming` flag is not touched, the thread buffer keeps its
size, in synthesizer mode the frame counter advances by one modulo `2^64`
and in queue mode it is left alone. -/
theorem acquireFrame_total (env : TimeEnv) (s : Session) (frame_buffer : List Nat)
    (hcons : s.Consistent) (hthread : s.streaming_thread = .looping frame_buffer) :
    ∃ s1 frame_buffer1 frame_ready,
      acquireFrame env s frame_buffer = .ok (s1, frame_buffer1, frame_ready)
      ∧ s1.streaming = s.streaming
      ∧ frame_buffer1.length = 640 * 480 * 3
      ∧ (s.use_rtmp_frames = false → ∀ c, s.frame_counter = some c →
          s1.frame_counter = some ((c + 1) % 2 ^ 64))
      ∧ (s.use_rtmp_frames = true → s1.frame_counter = s.frame_counter) := by
  have hbuf : frame_buffer.length = 640 * 480 * 3 := hcons.2 frame_buffer hthread
  cases hmode : s.use_rtmp_frames with
  | true =>
    obtain ⟨s1, fb1, ready, hacq, hgen, hstr, hl⟩ := acquireFrame_queue env s frame_buffer hmode
    refine ⟨s1, fb1, ready, hacq, hstr, hl hbuf, fun h => (by cases h), fun _ => ?_⟩
    unfold Session.frame_counter
    rw [hgen]
  | false =>
    cases hgen : s.frame_generator with
    | none =>
      refine ⟨s, frame_buffer, false, ?_, rfl, hbuf, fun _ c hc => ?_, fun h => (by cases h)⟩
      · unfold acquireFrame
        simp only [hmode, hgen]
        rfl
      · simp [Session.frame_counter, hgen] at hc
    | some g =>
      obtain ⟨fb1, hacq, hl⟩ := acquireFrame_synth env s frame_buffer g hmode hgen
        (hcons.1 g hgen) hbuf
      refine ⟨_, fb1, true, hacq, rfl, by rw [hl, hbuf], fun _ c hc => ?_, fun h => (by cases h)⟩
      simp only [Session.frame_counter, hgen, Option.map_some', Option.some.injEq] at hc
      simp only [Session.frame_counter, Option.map_some', hc]

/-- C8, evaluated on the code: in a session streaming the test pattern, a
tick whose `write` fails with errno 5 (`EIO`) makes the thread leave its
loop, but `streaming` is still true afterwards, and a following
`startFrameStreaming` reports success as "already active" without starting
a loop. -/
theorem fatal_write_leaves_streaming_set (env : TimeEnv) :
    ∃ s', streamingLoopIteration env (.failed 5) synthSession = .ok s'
      ∧ s'.streaming_thread = .finished
      ∧ s'.streaming = true
      ∧ ∀ pattern fill, startFrameStreaming pattern fill s' = .ok (s', true) := by
  obtain ⟨fb1, hacq, _⟩ := acquireFrame_synth env synthSession blankBuffer
    (FrameGenerator.new 640 480 TEST_PATTERN) rfl rfl ⟨rfl, rfl, by decide⟩ blankBuffer_length
  have hfatal : (5 : Int) ≠ EAGAIN ∧ (5 : Int) ≠ EWOULDBLOCK := by decide
  have hstep := streamingLoopIteration_of_acquire env (.failed 5) synthSession _ blankBuffer
    fb1 true rfl rfl hacq
  simp only [if_true, if_pos hfatal] at hstep
  refine ⟨_, hstep, rfl, rfl, ?_⟩
  intro pattern fill
  unfold startFrameStreaming
  have h3 : ¬ ((3 : Int) < 0) := by decide
  simp only [synthSession, h3, if_false, if_true]

/-- C9, counterexample: in queue mode with one valid frame queued (the
session left by one accepted push), a tick whose `write` fails with `EAGAIN`
hands the frame to the sink and keeps the thread in its loop, but there is
no frame counter before the tick and none after it, so no counter is one
greater. -/
theorem transient_failure_in_queue_mode_counts_nothing :
    pushRTMPFrame (uniformFrame 7) true queueSession = (queueSessionOne, true)
    ∧ ∃ s' frame_buffer',
      streamingLoopIteration stillEnv (.failed EAGAIN) queueSessionOne = .ok s'
      ∧ s'.streaming_thread = .looping frame_buffer'
      ∧ s'.streaming = true
      ∧ s'.sink_writes.length = 1
      ∧ queueSessionOne.frame_counter = none
      ∧ s'.frame_counter = none := by
  refine ⟨?_, ?_⟩
  · rw [pushRTMPFrame_accept (uniformFrame 7) queueSession rfl (uniformFrame_length 7)]
    rfl
  · have hacq := acquireFrame_queue_head stillEnv queueSessionOne blankBuffer
      ((uniformFrame 7).map toUint8) [] rfl rfl
      (by rw [List.length_map]; exact uniformFrame_length 7)
    have htransient : ¬ (EAGAIN ≠ EAGAIN ∧ EAGAIN ≠ EWOULDBLOCK) := by decide
    have hstep := streamingLoopIteration_of_acquire stillEnv (.failed EAGAIN) queueSessionOne _
      blankBuffer _ true rfl rfl hacq
    simp only [if_true, if_neg htransient] at hstep
    exact ⟨_, _, hstep, rfl, rfl, rfl, rfl, rfl⟩

/-- C9, amended: in a consistent session whose thread is in its loop with
`streaming` true, a tick whose `write` fails with `EAGAIN` or `EWOULDBLOCK`
returns with the thread still in its loop (on a buffer of `640 * 480 * 3`
bytes) and `streaming` still true, so the next loop test passes; in
synthesizer mode the frame counter after the tick is one greater, modulo
`2^64`, than before, and in queue mode the tick leaves the frame counter as
it was. -/
theorem transient_write_failure_tolerated (env : TimeEnv) (errno : Int) (s : Session)
    (frame_buffer : List Nat)
    (htransient : errno = EAGAIN ∨ errno = EWOULDBLOCK)
    (hcons : s.Consistent) (hthread : s.streaming_thread = .looping frame_buffer)
    (hrun : s.streaming = true) :
    ∃ s' frame_buffer',
      streamingLoopIteration env (.failed errno) s = .ok s'
      ∧ s'.streaming_thread = .looping frame_buffer'
      ∧ frame_buffer'.length = 640 * 480 * 3
      ∧ s'.streaming = true
      ∧ (s.use_rtmp_frames = false → ∀ c, s.frame_counter = some c →
          s'.frame_counter = some ((c + 1) % 2 ^ 64))
      ∧ (s.use_rtmp_frames = true → s'.frame_counter = s.frame_counter) := by
  obtain ⟨s1, fb1, ready, hacq, hstr, hl, hsyn, hque⟩ :=
    acquireFrame_total env s frame_buffer hcons hthread
  have hnf : ¬ (errno ≠ EAGAIN ∧ errno ≠ EWOULDBLOCK) := by
    rcases htransient with h | h
    · exact fun hc => hc.1 h
    · exact fun hc => hc.2 h
  rw [streamingLoopIteration_of_acquire env (.failed errno) s s1 frame_buffer fb1 ready
    hthread hrun hacq]
  cases ready with
  | true =>
    simp only [if_true, if_neg hnf]
    exact ⟨_, fb1, rfl, rfl, hl, by rw [← hrun, ← hstr], hsyn, hque⟩
  | false =>
    exact ⟨_, fb1, rfl, rfl, hl, by rw [← hrun, ← hstr], hsyn, hque⟩

theorem synthSession_consistent : synthSession.Consistent := by
  refine ⟨?_, ?_⟩
  · intro g hg
    have hg' : g = FrameGenerator.new 640 480 TEST_PATTERN := (Option.some.inj hg).symm
    rw [hg']
    exact ⟨rfl, rfl, by decide⟩
  · intro fb hfb
    have hfb' : fb = blankBuffer := (ThreadState.looping.inj hfb).symm
    rw [hfb']
    exact blankBuffer_length

/-- C9, witness for `transient_write_failure_tolerated`: the test pattern
session, whose counter goes from 0 to 1 across a tick failing with
`EAGAIN`. -/
theorem transient_write_failure_tolerated_witness :
    ∃ s', streamingLoopIteration stillEnv (.failed EAGAIN) synthSession = .ok s'
      ∧ s'.streaming = true ∧ s'.frame_counter = some 1 := by
  obtain ⟨s', fb', hrun, _, _, hstr, hsyn, _⟩ :=
    transient_write_failure_tolerated stillEnv EAGAIN synthSession blankBuffer (Or.inl rfl)
      synthSession_consistent rfl rfl
  exact ⟨s', hrun, hstr, hsyn rfl 0 rfl⟩

/-- C10, counterexample: a tick in queue mode on an empty queue changes
nothing; the session has no frame counter before or after it, so none was
incremented. -/
theorem tick_on_empty_queue_counts_nothing :
    streamingLoopIteration stillEnv (.bytes (640 * 480 * 3)) queueSession = .ok queueSession
    ∧ queueSession.frame_counter = none := by
  refine ⟨?_, rfl⟩
  rw [streamingLoopIteration_of_acquire stillEnv _ queueSession queueSession blankBuffer
    blankBuffer false rfl rfl (acquireFrame_queue_empty stillEnv queueSession blankBuffer rfl rfl)]
  rfl

/-- C10, amended: in a consistent session whose thread is in its loop with
`streaming` true, every tick returns, whatever `write` returns; in
synthesizer mode the frame counter (the synthesizer's `frame_counter`) is
then one greater, modulo `2^64`, than before the tick; in queue mode the
tick leaves the frame counter as it was, whether a frame was dequeued or the
queue was empty. -/
theorem tick_frame_counter (env : TimeEnv) (wr : WriteResult) (s : Session)
    (frame_buffer : List Nat)
    (hcons : s.Consistent) (hthread : s.streaming_thread = .looping frame_buffer)
    (hrun : s.streaming = true) :
    ∃ s', streamingLoopIteration env wr s = .ok s'
      ∧ (s.use_rtmp_frames = false → ∀ c, s.frame_counter = some c →
          s'.frame_counter = some ((c + 1) % 2 ^ 64))
      ∧ (s.use_rtmp_frames = true → s'.frame_counter = s.frame_counter) := by
  obtain ⟨s1, fb1, ready, hacq, _, _, hsyn, hque⟩ :=
    acquireFrame_total env s frame_buffer hcons hthread
  rw [streamingLoopIteration_of_acquire env wr s s1 frame_buffer fb1 ready hthread hrun hacq]
  cases ready with
  | false => exact ⟨_, rfl, hsyn, hque⟩
  | true =>
    cases wr with
    | bytes n => exact ⟨_, rfl, hsyn, hque⟩
    | failed errno =>
      by_cases hfatal : errno ≠ EAGAIN ∧ errno ≠ EWOULDBLOCK
      · simp only [if_true, if_pos hfatal]
        exact ⟨_, rfl, hsyn, hque⟩
      · simp only [if_true, if_neg hfatal]
        exact ⟨_, rfl, hsyn, hque⟩

/-- C10, witness for `tick_frame_counter`: the test pattern session, whose
counter goes from 0 to 1 across a tick with a complete write. -/
theorem tick_frame_counter_witness :
    ∃ s', streamingLoopIteration stillEnv (.bytes (640 * 480 * 3)) synthSession = .ok s'
      ∧ s'.frame_counter = some 1 := by
  obtain ⟨s', hrun, hsyn, _⟩ :=
    tick_frame_counter stillEnv (.bytes (640 * 480 * 3)) synthSession blankBuffer
      synthSession_consistent rfl rfl
  exact ⟨s', hrun, hsyn rfl 0 rfl⟩

/-! ## Start and stop -/

/-- A start that reports success leaves a ready sink and `streaming` set. -/
theorem startFrameStreaming_success (pattern : Int) (fill : Nat → Nat) (s s' : Session)
    (h : startFrameStreaming pattern fill s = .ok (s', true)) :
    0 ≤ s'.v4l2_fd ∧ s'.streaming = true := by
  unfold startFrameStreaming at h
  by_cases h1 : s.v4l2_fd < 0
  · rw [if_pos h1] at h
    have hr := (Prod.mk.inj (Except.ok.inj h)).2
    exact absurd hr (by decide)
  rw [if_neg h1] at h
  by_cases h2 : s.streaming = true
  · rw [if_pos h2] at h
    rw [← (Prod.mk.inj (Except.ok.inj h)).1]
    exact ⟨by omega, h2⟩
  rw [if_neg h2] at h
  dsimp only at h
  split at h
  · rw [← (Prod.mk.inj (Except.ok.inj h)).1]
    refine ⟨?_, rfl⟩
    by_cases hp : pattern = 4
    · simp only [if_pos hp]; omega
    · simp only [if_neg hp]; omega
  · exact Except.noConfusion h

/-- A start on a session that is already streaming with a ready sink
changes nothing and reports success. -/
theorem startFrameStreaming_running (pattern : Int) (fill : Nat → Nat) (s : Session)
    (hfd : 0 ≤ s.v4l2_fd) (hrun : s.streaming = true) :
    startFrameStreaming pattern fill s = .ok (s, true) := by
  unfold startFrameStreaming
  rw [if_neg (by omega), if_pos hrun]

/-- A start without a ready sink changes nothing and reports failure. -/
theorem startFrameStreaming_not_ready (pattern : Int) (fill : Nat → Nat) (s : Session)
    (hfd : s.v4l2_fd < 0) : startFrameStreaming pattern fill s = .ok (s, false) := by
  unfold startFrameStreaming
  rw [if_pos hfd]

/-- A start that reports failure has changed nothing. -/
theorem startFrameStreaming_failure (pattern : Int) (fill : Nat → Nat) (s s' : Session)
    (h : startFrameStreaming pattern fill s = .ok (s', false)) : s' = s := by
  unfold startFrameStreaming at h
  by_cases h1 : s.v4l2_fd < 0
  · rw [if_pos h1] at h
    exact ((Prod.mk.inj (Except.ok.inj h)).1).symm
  rw [if_neg h1] at h
  by_cases h2 : s.streaming = true
  · rw [if_pos h2] at h
    exact absurd (Prod.mk.inj (Except.ok.inj h)).2 (by decide)
  rw [if_neg h2] at h
  dsimp only at h
  split at h
  · exact absurd (Prod.mk.inj (Except.ok.inj h)).2 (by decide)
  · exact Except.noConfusion h

/-- A start on a session that is not streaming, has a ready sink and whose
thread object holds no thread: the source mode is set from the pattern, a
synthesizer is constructed unless the pattern is 4, `streaming` is set and
the thread enters its loop on a fresh buffer. -/
theorem startFrameStreaming_idle (pattern : Int) (fill : Nat → Nat) (s : Session)
    (hfd : 0 ≤ s.v4l2_fd) (hidle : s.streaming = false)
    (hthread : s.streaming_thread = .notStarted) :
    startFrameStreaming pattern fill s =
      .ok ({ s with
              use_rtmp_frames := decide (pattern = 4)
              frame_generator :=
                if pattern = 4 then s.frame_generator
                else some (FrameGenerator.new 640 480 pattern)
              streaming := true
              streaming_thread := .looping ((List.range (640 * 480 * 3)).map fill) },
            true) := by
  unfold startFrameStreaming
  rw [if_neg (by omega), if_neg (by rw [hidle]; decide)]
  by_cases hp : pattern = 4
  · simp only [if_pos hp, hthread, decide_eq_true hp]
  · simp only [if_neg hp, hthread, decide_eq_false hp]

/-- C12: for every session state `stopFrameStreaming` returns success, and
afterwards `streaming` is false, the source mode is not queue mode, the
synthesizer pointer is null, the frame queue is empty and the thread object
holds no thread; the descriptor and the record of writes are untouched. -/
theorem stop_leaves_session_idle (s : Session) :
    (stopFrameStreaming s).2 = true
    ∧ (stopFrameStreaming s).1.streaming = false
    ∧ (stopFrameStreaming s).1.use_rtmp_frames = false
    ∧ (stopFrameStreaming s).1.frame_generator = none
    ∧ (stopFrameStreaming s).1.rtmp_frame_queue = []
    ∧ (stopFrameStreaming s).1.streaming_thread = .notStarted
    ∧ (stopFrameStreaming s).1.v4l2_fd = s.v4l2_fd
    ∧ (stopFrameStreaming s).1.sink_writes = s.sink_writes :=
  ⟨rfl, rfl, rfl, rfl, rfl, rfl, rfl, rfl⟩

/-- C14: whenever the sink is not ready (`v4l2_fd < 0`), whatever the pattern
and the running flag, `startFrameStreaming` returns failure and leaves every
static unchanged; and every start that returns failure has left every static
unchanged. -/
theorem start_fails_without_sink :
    (∀ (pattern : Int) (fill : Nat → Nat) (s : Session), s.v4l2_fd < 0 →
      startFrameStreaming pattern fill s = .ok (s, false))
    ∧ (∀ (pattern : Int) (fill : Nat → Nat) (s s' : Session),
      startFrameStreaming pattern fill s = .ok (s', false) → s' = s) :=
  ⟨startFrameStreaming_not_ready, startFrameStreaming_failure⟩

/-- C14, witness for `start_fails_without_sink`: a start on the initial
statics, whose descriptor is -1. -/
theorem start_fails_without_sink_witness :
    startFrameStreaming 0 (fun _ => 0) Session.initial = .ok (Session.initial, false) :=
  start_fails_without_sink.1 0 (fun _ => 0) Session.initial (by decide)
/-! ## What the operations leave alone -/

/-- Obtaining a frame touches only the synthesizer (in synthesizer mode) and
the head of the queue (in queue mode). -/
theorem acquireFrame_fields (env : TimeEnv) (s s1 : Session) (fb fb1 : List Nat) (ready : Bool)
    (h : acquireFrame env s fb = .ok (s1, fb1, ready)) :
    s1.streaming = s.streaming
    ∧ s1.use_rtmp_frames = s.use_rtmp_frames
    ∧ s1.v4l2_fd = s.v4l2_fd
    ∧ s1.streaming_thread = s.streaming_thread
    ∧ s1.sink_writes = s.sink_writes
    ∧ (∀ f ∈ s1.rtmp_frame_queue, f ∈ s.rtmp_frame_queue)
    ∧ (s.use_rtmp_frames = true → s1.frame_generator = s.frame_generator) := by
  unfold acquireFrame at h
  rcases Bool.eq_false_or_eq_true s.use_rtmp_frames with hmode | hmode
  · simp only [hmode, if_true] at h
    cases hq : s.rtmp_frame_queue with
    | nil =>
      simp only [hq] at h
      have hs := (Prod.mk.inj (Except.ok.inj h)).1
      subst hs
      exact ⟨rfl, rfl, rfl, rfl, rfl, fun f hf => by rw [hq] at hf; exact hf, fun _ => rfl⟩
    | cons f0 rest =>
      simp only [hq] at h
      by_cases hf : f0.length = 640 * 480 * 3
      · rw [if_pos hf] at h
        have hs := (Prod.mk.inj (Except.ok.inj h)).1
        subst hs
        exact ⟨rfl, hmode.symm, rfl, rfl, rfl, fun f hf' => List.mem_cons_of_mem _ hf',
          fun _ => rfl⟩
      · rw [if_neg hf] at h
        have hs := (Prod.mk.inj (Except.ok.inj h)).1
        subst hs
        exact ⟨rfl, hmode.symm, rfl, rfl, rfl, fun f hf' => List.mem_cons_of_mem _ hf',
          fun _ => rfl⟩
  · have hnot : s.use_rtmp_frames = true → False := by rw [hmode]; exact Bool.noConfusion
    simp only [hmode] at h
    cases hgen : s.frame_generator with
    | none =>
      simp only [hgen] at h
      have hs := (Prod.mk.inj (Except.ok.inj h)).1
      have hs' : s1 = s := by simpa using hs.symm
      subst hs'
      exact ⟨rfl, rfl, rfl, rfl, rfl, fun f hf => hf, fun hc => (hnot hc).elim⟩
    | some g =>
      simp only [hgen] at h
      cases hg : g.generateFrame env fb with
      | error e =>
        rw [hg] at h
        cases h
      | ok r =>
        obtain ⟨g', b'⟩ := r
        rw [hg] at h
        have hs := (Prod.mk.inj (Except.ok.inj h)).1
        subst hs
        exact ⟨rfl, hmode.symm, rfl, rfl, rfl, fun f hf => hf, fun hc => (hnot hc).elim⟩

/-- A loop pass never writes `streaming`, the source mode or the descriptor,
adds nothing to the queue, and in queue mode leaves the synthesizer pointer
alone. -/
theorem streamingLoopIteration_fields (env : TimeEnv) (wr : WriteResult) (s s' : Session)
    (h : streamingLoopIteration env wr s = .ok s') :
    s'.streaming = s.streaming
    ∧ s'.use_rtmp_frames = s.use_rtmp_frames
    ∧ s'.v4l2_fd = s.v4l2_fd
    ∧ (∀ f ∈ s'.rtmp_frame_queue, f ∈ s.rtmp_frame_queue)
    ∧ (s.use_rtmp_frames = true → s'.frame_generator = s.frame_generator)
    ∧ (s.streaming_thread = .notStarted → s' = s) := by
  cases hthread : s.streaming_thread with
  | notStarted =>
    unfold streamingLoopIteration at h
    simp only [hthread] at h
    rw [← Except.ok.inj h]
    exact ⟨rfl, rfl, rfl, fun f hf => hf, fun _ => rfl, fun _ => rfl⟩
  | finished =>
    unfold streamingLoopIteration at h
    simp only [hthread] at h
    rw [← Except.ok.inj h]
    exact ⟨rfl, rfl, rfl, fun f hf => hf, fun _ => rfl, fun _ => rfl⟩
  | looping fb =>
    cases hrun : s.streaming with
    | false =>
      unfold streamingLoopIteration at h
      simp only [hthread, hrun] at h
      rw [← Except.ok.inj h]
      exact ⟨rfl, rfl, rfl, fun f hf => hf, fun _ => rfl,
        fun hc => ThreadState.noConfusion hc⟩
    | true =>
      cases hacq : acquireFrame env s fb with
      | error e =>
        unfold streamingLoopIteration at h
        simp only [hthread, hrun, hacq] at h
        cases h
      | ok r =>
        obtain ⟨s1, fb1, ready⟩ := r
        obtain ⟨f1, f2, f3, _, _, f6, f7⟩ := acquireFrame_fields env s s1 fb fb1 ready hacq
        rw [streamingLoopIteration_of_acquire env wr s s1 fb fb1 ready hthread hrun hacq] at h
        have hall : ∀ t : Session, (Except.ok t : Except Fault Session) = Except.ok s' →
            t.streaming = s1.streaming →
            t.use_rtmp_frames = s1.use_rtmp_frames → t.v4l2_fd = s1.v4l2_fd →
            t.rtmp_frame_queue = s1.rtmp_frame_queue →
            t.frame_generator = s1.frame_generator →
            s'.streaming = true
            ∧ s'.use_rtmp_frames = s.use_rtmp_frames
            ∧ s'.v4l2_fd = s.v4l2_fd
            ∧ (∀ f ∈ s'.rtmp_frame_queue, f ∈ s.rtmp_frame_queue)
            ∧ (s.use_rtmp_frames = true → s'.frame_generator = s.frame_generator)
            ∧ (ThreadState.looping fb = .notStarted → s' = s) := by
          intro t ht t1 t2 t3 t4 t5
          rw [← Except.ok.inj ht]
          exact ⟨by rw [t1, f1, hrun], by rw [t2, f2], by rw [t3, f3],
            fun f hf => f6 f (by rw [← t4]; exact hf), fun hm => by rw [t5]; exact f7 hm,
            fun hc => ThreadState.noConfusion hc⟩
        cases ready with
        | false =>
          simp only [Bool.false_eq_true, if_false] at h
          exact hall _ h rfl rfl rfl rfl rfl
        | true =>
          cases wr with
          | bytes n =>
            simp only [if_true] at h
            exact hall _ h rfl rfl rfl rfl rfl
          | failed errno =>
            by_cases hfatal : errno ≠ EAGAIN ∧ errno ≠ EWOULDBLOCK
            · simp only [if_true, if_pos hfatal] at h
              exact hall _ h rfl rfl rfl rfl rfl
            · simp only [if_true, if_neg hfatal] at h
              exact hall _ h rfl rfl rfl rfl rfl

/-- The entry point `initV4L2Device` writes only the descriptor. -/
theorem initV4L2Device_fields (opened : Int) (querycap_ok s_fmt_ok : Bool) (s : Session) :
    ∃ fd, (initV4L2Device opened querycap_ok s_fmt_ok s).1 = { s with v4l2_fd := fd } := by
  unfold initV4L2Device
  dsimp only
  split_ifs
  · exact ⟨opened, rfl⟩
  · exact ⟨-1, rfl⟩
  · exact ⟨-1, rfl⟩
  · exact ⟨opened, rfl⟩

/-- The entry point `closeV4L2Device` writes only the descriptor. -/
theorem closeV4L2Device_fields (s : Session) :
    ∃ fd, (closeV4L2Device s).1 = { s with v4l2_fd := fd } := by
  unfold closeV4L2Device
  split_ifs
  · exact ⟨-1, rfl⟩
  · exact ⟨s.v4l2_fd, rfl⟩

/-- A start leaves the queue alone and, unless it changes nothing, sets
`streaming`. -/
theorem startFrameStreaming_fields (pattern : Int) (fill : Nat → Nat) (s s' : Session) (r : Bool)
    (h : startFrameStreaming pattern fill s = .ok (s', r)) :
    s'.rtmp_frame_queue = s.rtmp_frame_queue ∧ (s' = s ∨ s'.streaming = true) := by
  unfold startFrameStreaming at h
  by_cases h1 : s.v4l2_fd < 0
  · rw [if_pos h1] at h
    rw [← (Prod.mk.inj (Except.ok.inj h)).1]
    exact ⟨rfl, Or.inl rfl⟩
  rw [if_neg h1] at h
  by_cases h2 : s.streaming = true
  · rw [if_pos h2] at h
    rw [← (Prod.mk.inj (Except.ok.inj h)).1]
    exact ⟨rfl, Or.inl rfl⟩
  rw [if_neg h2] at h
  dsimp only at h
  split at h
  · rw [← (Prod.mk.inj (Except.ok.inj h)).1]
    refine ⟨?_, Or.inr rfl⟩
    by_cases hp : pattern = 4
    · simp only [if_pos hp]
    · simp only [if_neg hp]
  · exact Except.noConfusion h
/-- A push writes nothing but the queue. -/
theorem pushRTMPFrame_fields (frame_data : List Int) (elements_ok : Bool) (s : Session) :
    (pushRTMPFrame frame_data elements_ok s).1.streaming = s.streaming
    ∧ (pushRTMPFrame frame_data elements_ok s).1.streaming_thread = s.streaming_thread
    ∧ (pushRTMPFrame frame_data elements_ok s).1.frame_generator = s.frame_generator
    ∧ (pushRTMPFrame frame_data elements_ok s).1.use_rtmp_frames = s.use_rtmp_frames
    ∧ (pushRTMPFrame frame_data elements_ok s).1.sink_writes = s.sink_writes
    ∧ (pushRTMPFrame frame_data elements_ok s).1.v4l2_fd = s.v4l2_fd := by
  unfold pushRTMPFrame
  dsimp only
  split_ifs <;> exact ⟨rfl, rfl, rfl, rfl, rfl, rfl⟩

/-- A push outside queue mode changes nothing. -/
theorem pushRTMPFrame_not_queue_mode (frame_data : List Int) (elements_ok : Bool) (s : Session)
    (hmode : s.use_rtmp_frames = false) :
    pushRTMPFrame frame_data elements_ok s = (s, false) := by
  unfold pushRTMPFrame
  simp [hmode]

/-- Every entry a push leaves in the queue was there before or has
`640 * 480 * 3` bytes. -/
theorem pushRTMPFrame_queue_entries (frame_data : List Int) (elements_ok : Bool) (s : Session) :
    ∀ f ∈ (pushRTMPFrame frame_data elements_ok s).1.rtmp_frame_queue,
      f ∈ s.rtmp_frame_queue ∨ f.length = 640 * 480 * 3 := by
  intro f hf
  unfold pushRTMPFrame at hf
  dsimp only at hf
  split_ifs at hf with h1 h2 h3 h4
  · exact Or.inl hf
  · exact Or.inl hf
  · exact Or.inl hf
  · rcases List.mem_append.mp hf with hm | hm
    · exact Or.inl (List.mem_of_mem_tail hm)
    · right
      rw [List.mem_singleton.mp hm, List.length_map]
      have h2' : (frame_data.length : Int) = 640 * 480 * 3 := by
        by_contra hc
        exact h2 hc
      have h2'' : (frame_data.length : Int) = ((640 * 480 * 3 : Nat) : Int) := by
        rw [h2']; norm_num
      exact_mod_cast h2''
  · rcases List.mem_append.mp hf with hm | hm
    · exact Or.inl hm
    · right
      rw [List.mem_singleton.mp hm, List.length_map]
      have h2' : (frame_data.length : Int) = 640 * 480 * 3 := by
        by_contra hc
        exact h2 hc
      have h2'' : (frame_data.length : Int) = ((640 * 480 * 3 : Nat) : Int) := by
        rw [h2']; norm_num
      exact_mod_cast h2''

/-! ## Reachable states -/

/-- Whenever `streaming` is false in a state reachable from `s0`, the thread
object holds no thread, there is no synthesizer, the mode is not queue mode
and the queue is empty, provided this is so in `s0`. -/
theorem reachableFrom_idle (s0 s : Session)
    (h0 : s0.streaming = false →
      s0.streaming_thread = .notStarted ∧ s0.frame_generator = none
        ∧ s0.use_rtmp_frames = false ∧ s0.rtmp_frame_queue = [])
    (h : ReachableFrom s0 s) :
    s.streaming = false →
      s.streaming_thread = .notStarted ∧ s.frame_generator = none
        ∧ s.use_rtmp_frames = false ∧ s.rtmp_frame_queue = [] := by
  induction h with
  | base => exact h0
  | init s opened q f _ ih =>
    obtain ⟨fd, hfd⟩ := initV4L2Device_fields opened q f s
    rw [hfd]
    exact ih
  | close s _ ih =>
    obtain ⟨fd, hfd⟩ := closeV4L2Device_fields s
    rw [hfd]
    exact ih
  | start s s' pattern fill r _ hstart ih =>
    obtain ⟨_, hor⟩ := startFrameStreaming_fields pattern fill s s' r hstart
    rcases hor with hs | hrun
    · rw [hs]; exact ih
    · intro hf
      rw [hrun] at hf
      cases hf
  | stop s _ _ => exact fun _ => ⟨rfl, rfl, rfl, rfl⟩
  | push s frame_data elements_ok _ ih =>
    intro hidle
    obtain ⟨p1, _, _, _, _, _⟩ := pushRTMPFrame_fields frame_data elements_ok s
    rw [p1] at hidle
    rw [pushRTMPFrame_not_queue_mode frame_data elements_ok s (ih hidle).2.2.1]
    exact ih hidle
  | tick s s' env wr _ htick ih =>
    intro hidle
    obtain ⟨t1, _, _, _, _, t6⟩ := streamingLoopIteration_fields env wr s s' htick
    rw [t1] at hidle
    rw [t6 (ih hidle).1]
    exact ih hidle

/-- Every queue entry of a state reachable from `s0` has `640 * 480 * 3`
bytes, provided this is so in `s0`. -/
theorem reachableFrom_queue_entries (s0 s : Session)
    (h0 : ∀ f ∈ s0.rtmp_frame_queue, f.length = 640 * 480 * 3)
    (h : ReachableFrom s0 s) :
    ∀ f ∈ s.rtmp_frame_queue, f.length = 640 * 480 * 3 := by
  induction h with
  | base => exact h0
  | init s opened q f _ ih =>
    obtain ⟨fd, hfd⟩ := initV4L2Device_fields opened q f s
    rw [hfd]
    exact ih
  | close s _ ih =>
    obtain ⟨fd, hfd⟩ := closeV4L2Device_fields s
    rw [hfd]
    exact ih
  | start s s' pattern fill r _ hstart ih =>
    obtain ⟨hq, _⟩ := startFrameStreaming_fields pattern fill s s' r hstart
    rw [hq]
    exact ih
  | stop s _ _ =>
    intro f hf
    cases hf
  | push s frame_data elements_ok _ ih =>
    intro f hf
    rcases pushRTMPFrame_queue_entries frame_data elements_ok s f hf with hm | hl
    · exact ih f hm
    · exact hl
  | tick s s' env wr _ htick ih =>
    intro f hf
    obtain ⟨_, _, _, t4, _, _⟩ := streamingLoopIteration_fields env wr s s' htick
    exact ih f (t4 f hf)

/-- Every state reachable from `s0` is consistent, provided `s0` is. -/
theorem reachableFrom_consistent (s0 s : Session) (h0 : s0.Consistent)
    (h : ReachableFrom s0 s) : s.Consistent := by
  induction h with
  | base => exact h0
  | init s opened q f _ ih =>
    obtain ⟨fd, hfd⟩ := initV4L2Device_fields opened q f s
    rw [hfd]
    exact ih
  | close s _ ih =>
    obtain ⟨fd, hfd⟩ := closeV4L2Device_fields s
    rw [hfd]
    exact ih
  | start s s' pattern fill r _ hstart ih =>
    exact startFrameStreaming_consistent pattern fill s s' r ih hstart
  | stop s _ _ => exact stopFrameStreaming_consistent s
  | push s frame_data elements_ok _ ih =>
    exact pushRTMPFrame_consistent frame_data elements_ok s ih
  | tick s s' env wr _ htick ih =>
    exact streamingLoopIteration_consistent env wr s s' ih htick

/-- In a reachable state that is not streaming, the thread object holds no
thread, there is no synthesizer, the mode is not queue mode and the queue is
empty. -/
theorem reachable_idle (s : Session) (h : Reachable s) (hidle : s.streaming = false) :
    s.streaming_thread = .notStarted ∧ s.frame_generator = none
      ∧ s.use_rtmp_frames = false ∧ s.rtmp_frame_queue = [] :=
  reachableFrom_idle Session.initial s (fun _ => ⟨rfl, rfl, rfl, rfl⟩) h hidle
/-- C11: on every session that is Running (`streaming` true) with a ready
sink (`v4l2_fd >= 0`), `startFrameStreaming` with any pattern returns success
and leaves every static unchanged (running flag, source mode, synthesizer
with its pattern and counter, queue, thread); hence whenever a start has
returned success, a second start returns success too and changes nothing, so
that no second loop is started; and from every reachable state with a ready
sink two consecutive starts both return success. -/
theorem start_while_running_changes_nothing :
    (∀ (pattern : Int) (fill : Nat → Nat) (s : Session),
      0 ≤ s.v4l2_fd → s.streaming = true →
      startFrameStreaming pattern fill s = .ok (s, true))
    ∧ (∀ (p1 p2 : Int) (fill1 fill2 : Nat → Nat) (s s1 : Session),
      startFrameStreaming p1 fill1 s = .ok (s1, true) →
      startFrameStreaming p2 fill2 s1 = .ok (s1, true))
    ∧ (∀ (p1 p2 : Int) (fill1 fill2 : Nat → Nat) (s : Session),
      Reachable s → 0 ≤ s.v4l2_fd →
      ∃ s1, startFrameStreaming p1 fill1 s = .ok (s1, true)
        ∧ startFrameStreaming p2 fill2 s1 = .ok (s1, true)) := by
  have hsecond : ∀ (p1 p2 : Int) (fill1 fill2 : Nat → Nat) (s s1 : Session),
      startFrameStreaming p1 fill1 s = .ok (s1, true) →
      startFrameStreaming p2 fill2 s1 = .ok (s1, true) := by
    intro p1 p2 fill1 fill2 s s1 h
    obtain ⟨hfd, hrun⟩ := startFrameStreaming_success p1 fill1 s s1 h
    exact startFrameStreaming_running p2 fill2 s1 hfd hrun
  refine ⟨startFrameStreaming_running, hsecond, ?_⟩
  intro p1 p2 fill1 fill2 s hreach hfd
  rcases Bool.eq_false_or_eq_true s.streaming with hrun | hidle
  · exact ⟨s, startFrameStreaming_running p1 fill1 s hfd hrun,
      startFrameStreaming_running p2 fill2 s hfd hrun⟩
  · have hfirst := startFrameStreaming_idle p1 fill1 s hfd hidle
      (reachable_idle s hreach hidle).1
    exact ⟨_, hfirst, hsecond p1 p2 fill1 fill2 s _ hfirst⟩

/-- C11, witness for `start_while_running_changes_nothing`: a start with
pattern 1 on the streaming test pattern session. -/
theorem start_while_running_changes_nothing_witness :
    startFrameStreaming 1 (fun _ => 0) synthSession = .ok (synthSession, true) :=
  start_while_running_changes_nothing.1 1 (fun _ => 0) synthSession (by decide) rfl

/-- C13: on every reachable session that is not Running and whose sink is
ready, `startFrameStreaming` returns success and yields a Running session
(`streaming` true, thread in its loop on a buffer of `640 * 480 * 3` bytes)
whose source mode is queue mode exactly when the pattern is 4; in
synthesizer mode a fresh 640x480 synthesizer of that pattern with frame
counter 0 is created, in queue mode there is no synthesizer, so no frame
counter other than 0 is left. -/
theorem start_from_idle (pattern : Int) (fill : Nat → Nat) (s : Session)
    (hreach : Reachable s) (hidle : s.streaming = false) (hfd : 0 ≤ s.v4l2_fd) :
    ∃ s' frame_buffer, startFrameStreaming pattern fill s = .ok (s', true)
      ∧ s'.streaming = true
      ∧ s'.streaming_thread = .looping frame_buffer
      ∧ frame_buffer.length = 640 * 480 * 3
      ∧ (s'.use_rtmp_frames = true ↔ pattern = 4)
      ∧ (pattern ≠ 4 →
          s'.frame_generator = some (FrameGenerator.new 640 480 pattern)
          ∧ s'.frame_counter = some 0)
      ∧ (pattern = 4 → s'.frame_generator = none)
      ∧ (∀ c, s'.frame_counter = some c → c = 0)
      ∧ s'.rtmp_frame_queue = [] ∧ s'.v4l2_fd = s.v4l2_fd := by
  obtain ⟨hthread, hgen, _, hq⟩ := reachable_idle s hreach hidle
  refine ⟨_, _, startFrameStreaming_idle pattern fill s hfd hidle hthread, rfl, rfl, ?_, ?_, ?_,
    ?_, ?_, hq, rfl⟩
  · rw [List.length_map, List.length_range]
  · exact decide_eq_true_iff
  · intro hp
    have hg : (if pattern = 4 then s.frame_generator
        else some (FrameGenerator.new 640 480 pattern))
        = some (FrameGenerator.new 640 480 pattern) := if_neg hp
    refine ⟨hg, ?_⟩
    unfold Session.frame_counter
    simp only [hg]
    rfl
  · intro hp
    simp only [if_pos hp, hgen]
  · intro c hc
    by_cases hp : pattern = 4
    · simp only [Session.frame_counter, if_pos hp, hgen, Option.map_none'] at hc
      cases hc
    · simp only [Session.frame_counter, if_neg hp, Option.map_some'] at hc
      exact (Option.some.inj hc).symm

/-- C13, witness for `start_from_idle`: a start with pattern 1 right after
the device has been opened with descriptor 3. -/
theorem start_from_idle_witness :
    ∃ s', startFrameStreaming 1 (fun _ => 0) (initV4L2Device 3 true true Session.initial).1
        = .ok (s', true)
      ∧ s'.streaming = true ∧ s'.frame_counter = some 0 := by
  obtain ⟨s', _, hstart, hrun, _, _, _, hsyn, _⟩ :=
    start_from_idle 1 (fun _ => 0) (initV4L2Device 3 true true Session.initial).1
      (ReachableFrom.init _ 3 true true ReachableFrom.base) rfl (by decide)
  exact ⟨s', hstart, hrun, (hsyn (by decide)).2⟩

/-! ## Ticks in queue mode -/

/-- Setting the thread state to what it is changes nothing. -/
theorem session_thread_eta (s : Session) (t : ThreadState) (h : s.streaming_thread = t) :
    { s with streaming_thread := t } = s := by
  subst h
  rfl

/-- In queue mode, a tick on a queue whose head has `640 * 480 * 3` bytes
removes the head, hands exactly its bytes to `write` and, unless `write`
fails fatally, stays in the loop. -/
theorem tick_dequeues_head (env : TimeEnv) (wr : WriteResult) (s : Session)
    (fb f : List Nat) (rest : List (List Nat))
    (hthread : s.streaming_thread = .looping fb) (hrun : s.streaming = true)
    (hmode : s.use_rtmp_frames = true) (hq : s.rtmp_frame_queue = f :: rest)
    (hf : f.length = 640 * 480 * 3) :
    streamingLoopIteration env wr s =
      .ok { s with
        rtmp_frame_queue := rest
        sink_writes := s.sink_writes ++ [f]
        streaming_thread :=
          if wr.isFatal then .finished
          else .looping (f.take (640 * 480 * 3) ++ fb.drop (640 * 480 * 3)) } := by
  have htake : (f.take (640 * 480 * 3) ++ fb.drop (640 * 480 * 3)).take (640 * 480 * 3) = f := by
    rw [List.take_of_length_le (le_of_eq hf)]
    exact List.take_left' hf
  rw [streamingLoopIteration_of_acquire env wr s _ fb _ true hthread hrun
    (acquireFrame_queue_head env s fb f rest hmode hq hf), htake]
  cases wr with
  | bytes n => rfl
  | failed errno =>
    by_cases hfatal : errno ≠ EAGAIN ∧ errno ≠ EWOULDBLOCK
    · have hb : (WriteResult.failed errno).isFatal = true := by
        simp only [WriteResult.isFatal, decide_eq_true hfatal]
      simp only [if_true, if_pos hfatal, hb]
    · have hb : (WriteResult.failed errno).isFatal = false := by
        simp only [WriteResult.isFatal, decide_eq_false hfatal]
      simp only [if_true, if_neg hfatal, hb, Bool.false_eq_true, if_false]

/-- In queue mode a tick on an empty queue leaves every static as it was. -/
theorem tick_empty_queue (env : TimeEnv) (wr : WriteResult) (s : Session) (fb : List Nat)
    (hthread : s.streaming_thread = .looping fb) (hrun : s.streaming = true)
    (hmode : s.use_rtmp_frames = true) (hq : s.rtmp_frame_queue = []) :
    streamingLoopIteration env wr s = .ok s := by
  rw [streamingLoopIteration_of_acquire env wr s s fb fb false hthread hrun
    (acquireFrame_queue_empty env s fb hmode hq)]
  simp only [Bool.false_eq_true, if_false]
  rw [session_thread_eta s _ hthread]

/-- C18: in queue mode, a tick of a Running session on an empty queue
returns with every static as it was: nothing is handed to `write`, the queue
is still empty, the synthesizer pointer is untouched, `streaming` is true
and the thread is in its loop on the same buffer, ready for the next
tick. -/
theorem tick_on_empty_queue_skips (env : TimeEnv) (wr : WriteResult) (s : Session)
    (fb : List Nat)
    (hthread : s.streaming_thread = .looping fb) (hrun : s.streaming = true)
    (hmode : s.use_rtmp_frames = true) (hq : s.rtmp_frame_queue = []) :
    ∃ s', streamingLoopIteration env wr s = .ok s'
      ∧ s' = s
      ∧ s'.sink_writes = s.sink_writes
      ∧ s'.rtmp_frame_queue = []
      ∧ s'.frame_generator = s.frame_generator
      ∧ s'.streaming = true
      ∧ s'.streaming_thread = .looping fb :=
  ⟨s, tick_empty_queue env wr s fb hthread hrun hmode hq, rfl, rfl, hq, rfl, hrun, hthread⟩

/-- C18, witness for `tick_on_empty_queue_skips`: the queue mode session
with its empty queue, `write` set to fail. -/
theorem tick_on_empty_queue_skips_witness :
    ∃ s', streamingLoopIteration stillEnv (.failed 5) queueSession = .ok s'
      ∧ s'.sink_writes = [] ∧ s'.streaming = true := by
  obtain ⟨s', htick, hs, _⟩ :=
    tick_on_empty_queue_skips stillEnv (.failed 5) queueSession blankBuffer rfl rfl rfl rfl
  exact ⟨s', htick, by rw [hs]; rfl, by rw [hs]; rfl⟩

/-- C19: in every state reachable, by device open and close, start, stop,
push and tick in any order, from a state whose queue is empty, every queue
entry has exactly `640 * 480 * 3` bytes; hence a tick of a Running session
in queue mode on a non-empty queue never takes the size mismatch branch: it
returns, removes the oldest entry and hands exactly that entry to
`write`. -/
theorem queue_entries_have_frame_size (s0 s : Session) (h0 : s0.rtmp_frame_queue = [])
    (h : ReachableFrom s0 s) :
    (∀ f ∈ s.rtmp_frame_queue, f.length = 640 * 480 * 3)
    ∧ (∀ (env : TimeEnv) (wr : WriteResult) (fb f : List Nat) (rest : List (List Nat)),
        s.streaming_thread = .looping fb → s.streaming = true → s.use_rtmp_frames = true →
        s.rtmp_frame_queue = f :: rest →
        ∃ s', streamingLoopIteration env wr s = .ok s'
          ∧ s'.rtmp_frame_queue = rest
          ∧ s'.sink_writes = s.sink_writes ++ [f]) := by
  have hvalid : ∀ f ∈ s.rtmp_frame_queue, f.length = 640 * 480 * 3 :=
    reachableFrom_queue_entries s0 s (fun f hf => by rw [h0] at hf; cases hf) h
  refine ⟨hvalid, ?_⟩
  intro env wr fb f rest hthread hrun hmode hq
  exact ⟨_, tick_dequeues_head env wr s fb f rest hthread hrun hmode hq
    (hvalid f (by rw [hq]; exact List.mem_cons_self _ _)), rfl, rfl⟩

/-- C19, witness for `queue_entries_have_frame_size`: the entry that one
push leaves in the empty queue of the queue mode session. -/
theorem queue_entries_have_frame_size_witness :
    ((uniformFrame 7).map toUint8).length = 640 * 480 * 3 :=
  (queue_entries_have_frame_size queueSession
    (pushRTMPFrame (uniformFrame 7) true queueSession).1 rfl
    (ReachableFrom.push _ _ _ ReachableFrom.base)).1 ((uniformFrame 7).map toUint8)
    (by
      rw [pushRTMPFrame_accept (uniformFrame 7) queueSession rfl (uniformFrame_length 7)]
      exact List.mem_append_right _ (List.mem_singleton.mpr rfl))
/-- Pushes write nothing but the queue. -/
theorem pushAll_fields (fs : List (List Int)) (s : Session) :
    (pushAll fs s).streaming = s.streaming
    ∧ (pushAll fs s).streaming_thread = s.streaming_thread
    ∧ (pushAll fs s).sink_writes = s.sink_writes := by
  induction fs generalizing s with
  | nil => exact ⟨rfl, rfl, rfl⟩
  | cons f fs ih =>
    rw [pushAll_cons]
    obtain ⟨a, b, c⟩ := ih (pushRTMPFrame f true s).1
    obtain ⟨p1, p2, _, _, p5, _⟩ := pushRTMPFrame_fields f true s
    exact ⟨by rw [a, p1], by rw [b, p2], by rw [c, p5]⟩

/-- As many ticks as the queue has entries, none but possibly the last with
a fatal `write` result, hand the entries to `write` oldest first and leave
the queue empty. -/
theorem runTicks_drains (q : List (List Nat)) :
    ∀ (ticks : List (TimeEnv × WriteResult)) (s : Session),
      (q ≠ [] → ∃ fb, s.streaming_thread = .looping fb) →
      s.streaming = true → s.use_rtmp_frames = true → s.rtmp_frame_queue = q →
      (∀ f ∈ q, f.length = 640 * 480 * 3) → ticks.length = q.length →
      (∀ i t, i + 1 < ticks.length → ticks[i]? = some t → t.2.isFatal = false) →
      ∃ s', runTicks ticks s = .ok s' ∧ s'.sink_writes = s.sink_writes ++ q
        ∧ s'.rtmp_frame_queue = [] := by
  induction q with
  | nil =>
    intro ticks s _ _ _ hq _ hlen _
    have ht : ticks = [] := List.length_eq_zero.mp hlen
    subst ht
    exact ⟨s, rfl, by rw [List.append_nil], hq⟩
  | cons f rest ih =>
    intro ticks s hthread hrun hmode hq hvalid hlen hnf
    obtain ⟨fb, hfb⟩ := hthread (List.cons_ne_nil _ _)
    cases ticks with
    | nil => cases hlen
    | cons t ticks' =>
      obtain ⟨env, wr⟩ := t
      have hlen' : ticks'.length = rest.length := by
        simpa using hlen
      have htick := tick_dequeues_head env wr s fb f rest hfb hrun hmode hq
        (hvalid f (List.mem_cons_self _ _))
      obtain ⟨s', hrun', hsink, hq'⟩ := ih ticks'
        { s with
          rtmp_frame_queue := rest
          sink_writes := s.sink_writes ++ [f]
          streaming_thread :=
            if wr.isFatal then .finished
            else .looping (f.take (640 * 480 * 3) ++ fb.drop (640 * 480 * 3)) }
        (by
          intro hne
          have hpos : 0 + 1 < ((env, wr) :: ticks').length := by
            have : rest.length ≠ 0 := fun hc => hne (List.length_eq_zero.mp hc)
            simp only [List.length_cons]
            omega
          have hw : wr.isFatal = false := hnf 0 (env, wr) hpos (List.getElem?_cons_zero)
          refine ⟨f.take (640 * 480 * 3) ++ fb.drop (640 * 480 * 3), ?_⟩
          simp only [hw, Bool.false_eq_true, if_false])
        hrun hmode rfl (fun g hg => hvalid g (List.mem_cons_of_mem _ hg)) hlen'
        (by
          intro i t hi ht
          exact hnf (i + 1) t (by simp only [List.length_cons]; omega)
            (by rw [List.getElem?_cons_succ]; exact ht))
      refine ⟨s', ?_, ?_, hq'⟩
      · simp only [runTicks, htick]
        exact hrun'
      · rw [hsink]
        simp only [List.append_assoc, List.singleton_append]

/-- C15: in queue mode, a tick of a Running reachable session on a non-empty
queue returns, removes exactly the oldest entry (the others keep their
order) and hands exactly that entry's bytes to `write`; hence `k <= 10`
valid frames pushed onto the empty queue of a Running queue mode session are
handed to `write` in push order by the next `k` ticks (the loop being left
by none of the first `k - 1` through a fatal `write` result). -/
theorem queue_mode_ticks_write_in_push_order :
    (∀ (env : TimeEnv) (wr : WriteResult) (s : Session) (fb f : List Nat)
        (rest : List (List Nat)),
      Reachable s → s.streaming_thread = .looping fb → s.streaming = true →
      s.use_rtmp_frames = true → s.rtmp_frame_queue = f :: rest →
      ∃ s', streamingLoopIteration env wr s = .ok s'
        ∧ s'.rtmp_frame_queue = rest
        ∧ s'.sink_writes = s.sink_writes ++ [f])
    ∧ (∀ (frames : List (List Int)) (ticks : List (TimeEnv × WriteResult)) (s : Session)
        (fb : List Nat),
      s.streaming_thread = .looping fb → s.streaming = true →
      s.use_rtmp_frames = true → s.rtmp_frame_queue = [] →
      frames.length ≤ 10 → (∀ f ∈ frames, f.length = 640 * 480 * 3) →
      ticks.length = frames.length →
      (∀ i t, i + 1 < ticks.length → ticks[i]? = some t → t.2.isFatal = false) →
      ∃ s', runTicks ticks (pushAll frames s) = .ok s'
        ∧ s'.sink_writes = s.sink_writes ++ frames.map (fun f => f.map toUint8)
        ∧ s'.rtmp_frame_queue = []) := by
  constructor
  · intro env wr s fb f rest hreach hthread hrun hmode hq
    have hvalid := reachableFrom_queue_entries Session.initial s
      (fun g hg => by cases hg) hreach
    exact ⟨_, tick_dequeues_head env wr s fb f rest hthread hrun hmode hq
      (hvalid f (by rw [hq]; exact List.mem_cons_self _ _)), rfl, rfl⟩
  · intro frames ticks s fb hthread hrun hmode hq hk hvalid hlen hnf
    obtain ⟨p1, p2, p3⟩ := pushAll_fields frames s
    have hqueue : (pushAll frames s).rtmp_frame_queue = frames.map (fun f => f.map toUint8) := by
      rw [pushAll_queue frames s hmode hvalid (by rw [hq]; exact Nat.zero_le _), hq]
      have h0 : ([] : List (List Nat)).length + frames.length - 11 = 0 := by
        simp only [List.length_nil]
        omega
      rw [h0, List.nil_append, List.drop_zero]
    obtain ⟨s', hrun', hsink, hq'⟩ := runTicks_drains (frames.map (fun f => f.map toUint8)) ticks
      (pushAll frames s) (fun _ => ⟨fb, by rw [p2, hthread]⟩) (by rw [p1, hrun])
      (by rw [pushAll_mode, hmode]) hqueue
      (by
        intro g hg
        obtain ⟨f, hf, rfl⟩ := List.mem_map.mp hg
        rw [List.length_map]
        exact hvalid f hf)
      (by rw [List.length_map]; exact hlen) hnf
    exact ⟨s', hrun', by rw [hsink, p3], hq'⟩

/-- C15, witness for `queue_mode_ticks_write_in_push_order`: two frames
pushed onto the queue mode session are handed to `write` by two ticks, the
second of which fails fatally. -/
theorem queue_mode_ticks_write_in_push_order_witness :
    ∃ s', runTicks [(stillEnv, .bytes (640 * 480 * 3)), (stillEnv, .failed 5)]
        (pushAll [uniformFrame 1, uniformFrame 2] queueSession) = .ok s'
      ∧ s'.sink_writes = [(uniformFrame 1).map toUint8, (uniformFrame 2).map toUint8] := by
  obtain ⟨s', hrun, hsink, _⟩ := queue_mode_ticks_write_in_push_order.2
    [uniformFrame 1, uniformFrame 2]
    [(stillEnv, .bytes (640 * 480 * 3)), (stillEnv, .failed 5)] queueSession blankBuffer
    rfl rfl rfl rfl (by decide) (uniformFrames_valid [1, 2]) rfl
    (by
      intro i t hi ht
      have hi0 : i = 0 := by
        simp only [List.length_cons, List.length_nil] at hi
        omega
      subst hi0
      have ht' : t = (stillEnv, WriteResult.bytes (640 * 480 * 3)) := by
        simpa using ht.symm
      rw [ht']
      rfl)
  exact ⟨s', hrun, hsink⟩
/-! ## ImageFilePlaceholder -/

/-- The checkerboard value the code computes at a pixel with non-negative
coordinates is the one the specification prescribes. -/
theorem imageFile_value_eq_spec (x y : Int) (hx : 0 ≤ x) (hy : 0 ≤ y) :
    ((if (Int.tmod (Int.tdiv x 32 + Int.tdiv y 32) 2 == 0) = true then 255 else 64 : Nat),
      (if (Int.tmod (Int.tdiv x 32 + Int.tdiv y 32) 2 == 0) = true then 255 else 64 : Nat),
      (if (Int.tmod (Int.tdiv x 32 + Int.tdiv y 32) 2 == 0) = true then 255 else 64 : Nat))
      = specImageFilePixel x y := by
  have h1 : Int.tdiv x 32 = x / 32 := Int.tdiv_eq_ediv hx (by norm_num)
  have h2 : Int.tdiv y 32 = y / 32 := Int.tdiv_eq_ediv hy (by norm_num)
  have h3 : Int.tmod (x / 32 + y / 32) 2 = (x / 32 + y / 32) % 2 :=
    Int.tmod_eq_emod (by omega) (by norm_num)
  rw [h1, h2, h3]
  unfold specImageFilePixel
  by_cases hc : (x / 32 + y / 32) % 2 = 0
  · simp only [hc, beq_self_eq_true, if_true]
  · have hb : ((x / 32 + y / 32) % 2 == 0) = false := by
      rw [beq_eq_false_iff_ne]
      exact hc
    simp only [hb, Bool.false_eq_true, if_false, if_neg hc]

/-- The function `generateImageFile` returns on every buffer of `w*h*3`
bytes, and every pixel of the frame then holds the checkerboard colour of the
specification. -/
theorem generateImageFile_pixels (g : FrameGenerator) (buffer : List Nat)
    (hlen : (buffer.length : Int) = g.frame_width * g.frame_height * 3) :
    ∃ buffer', g.generateImageFile buffer = .ok buffer'
      ∧ buffer'.length = buffer.length
      ∧ ∀ x y, 0 ≤ x → x < g.frame_width → 0 ≤ y → y < g.frame_height →
          pixelAt buffer' g.frame_width x y = some (specImageFilePixel x y) := by
  obtain ⟨buffer', hrun, hl, hpix⟩ := fill_frame g
    (fun x y =>
      ((if (Int.tmod (Int.tdiv x 32 + Int.tdiv y 32) 2 == 0) = true then 255 else 64 : Nat),
        (if (Int.tmod (Int.tdiv x 32 + Int.tdiv y 32) 2 == 0) = true then 255 else 64 : Nat),
        (if (Int.tmod (Int.tdiv x 32 + Int.tdiv y 32) 2 == 0) = true then 255 else 64 : Nat)))
    (fun y x buf => g.setPixel buf x y
      (if (Int.tmod (Int.tdiv x 32 + Int.tdiv y 32) 2 == 0) = true then 255 else 64)
      (if (Int.tmod (Int.tdiv x 32 + Int.tdiv y 32) 2 == 0) = true then 255 else 64)
      (if (Int.tmod (Int.tdiv x 32 + Int.tdiv y 32) 2 == 0) = true then 255 else 64))
    (fun _ _ _ _ _ _ _ => rfl) buffer hlen
  refine ⟨buffer', hrun, hl, ?_⟩
  intro x y hx hxw hy hyh
  rw [hpix x y hx hxw hy hyh, imageFile_value_eq_spec x y hx hy]

/-- C17: for every geometry and every buffer of `width*height*3` bytes,
`generateImageFile` returns, and at every pixel `(x, y)` of the frame it has
written red = green = blue = 255 when
`(floor(x/32) + floor(y/32)) mod 2 = 0` and red = green = blue = 64
otherwise; the result is the same for every value of the frame counter. -/
theorem generateImageFile_matches_spec (g : FrameGenerator) (buffer : List Nat)
    (hlen : (buffer.length : Int) = g.frame_width * g.frame_height * 3) :
    ∃ buffer', g.generateImageFile buffer = .ok buffer'
      ∧ (∀ x y, 0 ≤ x → x < g.frame_width → 0 ≤ y → y < g.frame_height →
          pixelAt buffer' g.frame_width x y =
            some (if (x / 32 + y / 32) % 2 = 0 then (255, 255, 255) else (64, 64, 64)))
      ∧ ∀ c : Nat,
          FrameGenerator.generateImageFile { g with frame_counter := c } buffer = .ok buffer' := by
  obtain ⟨buffer', hrun, _, hpix⟩ := generateImageFile_pixels g buffer hlen
  exact ⟨buffer', hrun, hpix, fun _ => hrun⟩

/-- C17, witness for `generateImageFile_matches_spec`: on a 33x1 frame pixel
(32, 0) lies in the second cell and is dark gray. -/
theorem generateImageFile_matches_spec_witness :
    ∃ buffer', FrameGenerator.generateImageFile (FrameGenerator.new 33 1 IMAGE_FILE)
        (List.replicate 99 0) = .ok buffer'
      ∧ pixelAt buffer' 33 32 0 = some (64, 64, 64) := by
  obtain ⟨buffer', hrun, hpix, _⟩ := generateImageFile_matches_spec
    (FrameGenerator.new 33 1 IMAGE_FILE) (List.replicate 99 0) (by decide)
  exact ⟨buffer', hrun, hpix 32 0 (by decide) (by decide) (by decide) (by decide)⟩
/-! ## Successive frames of the TestPattern -/

/-- One call of `generateFrame` on a TestPattern generator: it returns, the
counter advances by one modulo `2^64`, nothing else in the generator changes,
and every pixel of the frame holds the colour computed from the counter the
call started with. -/
theorem generateFrame_testPattern (env : TimeEnv) (g : FrameGenerator) (buffer : List Nat)
    (hp : g.current_pattern = TEST_PATTERN)
    (hlen : (buffer.length : Int) = g.frame_width * g.frame_height * 3) :
    ∃ buffer', g.generateFrame env buffer
        = .ok ({ g with frame_counter := (g.frame_counter + 1) % 2 ^ 64 }, buffer')
      ∧ buffer'.length = buffer.length
      ∧ ∀ x y, 0 ≤ x → x < g.frame_width → 0 ≤ y → y < g.frame_height →
          pixelAt buffer' g.frame_width x y =
            some (toUint8 (Int.tmod (x + y + toInt32 g.frame_counter) 255),
              toUint8 (Int.tmod (Int.tmod (x + y + toInt32 g.frame_counter) 255 + 85) 255),
              toUint8 (Int.tmod (Int.tmod (x + y + toInt32 g.frame_counter) 255 + 170) 255)) := by
  obtain ⟨buffer', hrun, hl, hpix⟩ := generateTestPattern_pixels g buffer hlen
  refine ⟨buffer', ?_, hl, hpix⟩
  have hrender : FrameGenerator.renderPattern env g buffer = .ok buffer' := by
    unfold FrameGenerator.renderPattern
    rw [if_pos hp]
    exact hrun
  unfold FrameGenerator.generateFrame
  simp only [bind, Except.bind, hrender]

/-- Successive calls of `generateFrame` on a TestPattern generator all
return; the counter has advanced by their number modulo `2^64`, geometry and
pattern are unchanged and the buffer has kept its length. -/
theorem generateFrames_testPattern (envs : List TimeEnv) :
    ∀ (g : FrameGenerator) (buffer : List Nat), g.current_pattern = TEST_PATTERN →
      (buffer.length : Int) = g.frame_width * g.frame_height * 3 →
      g.frame_counter < 2 ^ 64 →
      ∃ g' buffer', generateFrames envs g buffer = .ok (g', buffer')
        ∧ g'.frame_counter = (g.frame_counter + envs.length) % 2 ^ 64
        ∧ g'.frame_width = g.frame_width ∧ g'.frame_height = g.frame_height
        ∧ g'.current_pattern = g.current_pattern
        ∧ buffer'.length = buffer.length := by
  induction envs with
  | nil =>
    intro g buffer _ _ hc
    exact ⟨g, buffer, rfl, by rw [List.length_nil, Nat.add_zero, Nat.mod_eq_of_lt hc],
      rfl, rfl, rfl, rfl⟩
  | cons env envs ih =>
    intro g buffer hp hlen hc
    obtain ⟨b1, hrun1, hl1, _⟩ := generateFrame_testPattern env g buffer hp hlen
    obtain ⟨g', b', hrun, hcnt, hw, hh, hpat, hl⟩ := ih
      { g with frame_counter := (g.frame_counter + 1) % 2 ^ 64 } b1 hp
      (by rw [hl1]; exact hlen) (Nat.mod_lt _ (by norm_num))
    refine ⟨g', b', ?_, ?_, hw, hh, hpat, by rw [hl, hl1]⟩
    · simp only [generateFrames, hrun1]
      exact hrun
    · rw [hcnt]
      simp only [List.length_cons]
      omega

/-- Frame number `n` of a fresh TestPattern generator: the call returns, the
counter is `n + 1` afterwards (for `n + 1 < 2^64`) and every pixel holds the
colour computed from the counter `n`. -/
theorem nthGenerateFrame_testPattern (envs : List TimeEnv) (env : TimeEnv) (w h : Int)
    (buffer : List Nat) (hlen : (buffer.length : Int) = w * h * 3)
    (hn : envs.length + 1 < 2 ^ 64) :
    ∃ g' buffer', nthGenerateFrame envs env (FrameGenerator.new w h TEST_PATTERN) buffer
        = .ok (g', buffer')
      ∧ g'.frame_counter = envs.length + 1
      ∧ buffer'.length = buffer.length
      ∧ ∀ x y, 0 ≤ x → x < w → 0 ≤ y → y < h →
          pixelAt buffer' w x y =
            some (toUint8 (Int.tmod (x + y + toInt32 envs.length) 255),
              toUint8 (Int.tmod (Int.tmod (x + y + toInt32 envs.length) 255 + 85) 255),
              toUint8 (Int.tmod (Int.tmod (x + y + toInt32 envs.length) 255 + 170) 255)) := by
  obtain ⟨g1, b1, hrun1, hcnt, hw, hh, hpat, hl1⟩ := generateFrames_testPattern envs
    (FrameGenerator.new w h TEST_PATTERN) buffer rfl hlen
    (show (0 : Nat) < 2 ^ 64 by decide)
  have hcnt' : g1.frame_counter = envs.length := by
    rw [hcnt]
    show (0 + envs.length) % 2 ^ 64 = envs.length
    rw [Nat.zero_add]
    exact Nat.mod_eq_of_lt (by omega)
  have hw' : g1.frame_width = w := hw
  have hh' : g1.frame_height = h := hh
  obtain ⟨b2, hrun2, hl2, hpix⟩ := generateFrame_testPattern env g1 b1 hpat
    (by rw [hl1, hw', hh']; exact hlen)
  refine ⟨{ g1 with frame_counter := (g1.frame_counter + 1) % 2 ^ 64 }, b2, ?_, ?_,
    by rw [hl2, hl1], ?_⟩
  · simp only [nthGenerateFrame, hrun1]
    exact hrun2
  · show (g1.frame_counter + 1) % 2 ^ 64 = envs.length + 1
    rw [hcnt']
    exact Nat.mod_eq_of_lt hn
  · intro x y hx hxw hy hyh
    have := hpix x y hx (by rw [hw']; exact hxw) hy (by rw [hh']; exact hyh)
    rw [hw', hcnt'] at this
    exact this

/-- The colour the specification prescribes at pixel (0,0) for counter
`n`. -/
theorem specTestPatternPixel_origin (n : Nat) :
    specTestPatternPixel 0 0 n = (n % 255, (n % 255 + 85) % 255, (n % 255 + 170) % 255) := by
  unfold specTestPatternPixel
  simp only [zero_add]
  refine Prod.ext ?_ (Prod.ext ?_ ?_)
  · show ((n : Int) % 255).toNat = n % 255
    omega
  · show (((n : Int) % 255 + 85) % 255).toNat = (n % 255 + 85) % 255
    omega
  · show (((n : Int) % 255 + 170) % 255).toNat = (n % 255 + 170) % 255
    omega

/-- C16, counterexample: frame number `2^32` of a fresh 1x1 TestPattern
generator (the call that follows `2^32` earlier calls) has red 0 at pixel
(0,0), since `static_cast<int>` of the counter `2^32` is 0, while
`2^32 mod 255 = 1`. -/
theorem testPattern_frame_two_pow_32_has_red_zero :
    ∃ g' buffer',
      nthGenerateFrame (List.replicate (2 ^ 32) stillEnv) stillEnv
        (FrameGenerator.new 1 1 TEST_PATTERN) [9, 9, 9] = .ok (g', buffer')
      ∧ pixelAt buffer' 1 0 0 = some (0, 85, 170)
      ∧ 2 ^ 32 % 255 = 1 := by
  obtain ⟨g', buffer', hrun, _, _, hpix⟩ := nthGenerateFrame_testPattern
    (List.replicate (2 ^ 32) stillEnv) stillEnv 1 1 [9, 9, 9] (by decide)
    (by rw [List.length_replicate]; decide)
  refine ⟨g', buffer', hrun, ?_, by decide⟩
  rw [hpix 0 0 (by decide) (by decide) (by decide) (by decide), List.length_replicate]
  decide

/-- C16, amended: for a freshly constructed TestPattern generator of any
geometry with `width >= 1` and `height >= 1`, a buffer of `width*height*3`
bytes and every `n < 2^31`, the call number `n` of `generateFrame` (counted
from 0) returns, leaves the counter at `n + 1`, and has rendered with frame
counter `n`: pixel (0,0) has red `n mod 255`, and every pixel `(x, y)` with
`x + y + n < 2^31` holds the colour the specification prescribes for counter
`n`; for geometry 4x2 frame 0 has red 0 and frame 30 has red 30 at pixel
(0,0), and the two frames differ. -/
theorem testPattern_frame_sequence :
    (∀ (envs : List TimeEnv) (env : TimeEnv) (w h : Int) (buffer : List Nat),
      1 ≤ w → 1 ≤ h → (buffer.length : Int) = w * h * 3 → envs.length < 2 ^ 31 →
      ∃ g' buffer', nthGenerateFrame envs env (FrameGenerator.new w h TEST_PATTERN) buffer
          = .ok (g', buffer')
        ∧ g'.frame_counter = envs.length + 1
        ∧ pixelAt buffer' w 0 0 =
            some (envs.length % 255, (envs.length % 255 + 85) % 255,
              (envs.length % 255 + 170) % 255)
        ∧ ∀ x y, 0 ≤ x → x < w → 0 ≤ y → y < h → x + y + (envs.length : Int) < 2 ^ 31 →
            pixelAt buffer' w x y = some (specTestPatternPixel x y envs.length))
    ∧ (∀ (envs : List TimeEnv) (env0 env30 : TimeEnv) (buffer : List Nat),
      buffer.length = 24 → envs.length = 30 →
      ∃ g0 frame0 g30 frame30,
        nthGenerateFrame [] env0 (FrameGenerator.new 4 2 TEST_PATTERN) buffer = .ok (g0, frame0)
        ∧ nthGenerateFrame envs env30 (FrameGenerator.new 4 2 TEST_PATTERN) buffer
            = .ok (g30, frame30)
        ∧ pixelAt frame0 4 0 0 = some (0, 85, 170)
        ∧ pixelAt frame30 4 0 0 = some (30, 115, 200)
        ∧ frame0 ≠ frame30) := by
  have hgen : ∀ (envs : List TimeEnv) (env : TimeEnv) (w h : Int) (buffer : List Nat),
      1 ≤ w → 1 ≤ h → (buffer.length : Int) = w * h * 3 → envs.length < 2 ^ 31 →
      ∃ g' buffer', nthGenerateFrame envs env (FrameGenerator.new w h TEST_PATTERN) buffer
          = .ok (g', buffer')
        ∧ g'.frame_counter = envs.length + 1
        ∧ ∀ x y, 0 ≤ x → x < w → 0 ≤ y → y < h → x + y + (envs.length : Int) < 2 ^ 31 →
            pixelAt buffer' w x y = some (specTestPatternPixel x y envs.length) := by
    intro envs env w h buffer _ _ hlen hn
    obtain ⟨g', buffer', hrun, hcnt, _, hpix⟩ :=
      nthGenerateFrame_testPattern envs env w h buffer hlen (by omega)
    refine ⟨g', buffer', hrun, hcnt, ?_⟩
    intro x y hx hxw hy hyh hsum
    rw [hpix x y hx hxw hy hyh, testPattern_value_eq_spec x y envs.length hx hy hsum]
  constructor
  · intro envs env w h buffer hw hh hlen hn
    obtain ⟨g', buffer', hrun, hcnt, hpix⟩ := hgen envs env w h buffer hw hh hlen hn
    refine ⟨g', buffer', hrun, hcnt, ?_, hpix⟩
    have hsum : (0 : Int) + 0 + (envs.length : Int) < 2 ^ 31 := by
      have : ((envs.length : Nat) : Int) < 2 ^ 31 := by exact_mod_cast hn
      omega
    rw [hpix 0 0 (le_refl 0) (by omega) (le_refl 0) (by omega) hsum,
      specTestPatternPixel_origin]
  · intro envs env0 env30 buffer hlen h30
    have hlen' : (buffer.length : Int) = 4 * 2 * 3 := by rw [hlen]; norm_num
    obtain ⟨g0, frame0, hrun0, _, hpix0⟩ := hgen [] env0 4 2 buffer (by norm_num) (by norm_num)
      hlen' (by decide)
    obtain ⟨g30, frame30, hrun30, _, hpix30⟩ := hgen envs env30 4 2 buffer (by norm_num)
      (by norm_num) hlen' (by rw [h30]; decide)
    have hp0 := hpix0 0 0 (by norm_num) (by norm_num) (by norm_num) (by norm_num) (by decide)
    have hp30 := hpix30 0 0 (by norm_num) (by norm_num) (by norm_num) (by norm_num)
      (by rw [h30]; decide)
    rw [h30] at hp30
    have e0 : specTestPatternPixel 0 0 ([] : List TimeEnv).length = (0, 85, 170) := by decide
    have e30 : specTestPatternPixel 0 0 30 = (30, 115, 200) := by decide
    rw [e0] at hp0
    rw [e30] at hp30
    refine ⟨g0, frame0, g30, frame30, hrun0, hrun30, hp0, hp30, ?_⟩
    intro heq
    rw [heq, hp30] at hp0
    exact absurd hp0 (by decide)

/-- C16, witness for `testPattern_frame_sequence`: frame number 2 of a fresh
4x2 TestPattern generator. -/
theorem testPattern_frame_sequence_witness :
    ∃ g' buffer',
      nthGenerateFrame [stillEnv, stillEnv] stillEnv (FrameGenerator.new 4 2 TEST_PATTERN)
        (List.replicate 24 0) = .ok (g', buffer')
      ∧ g'.frame_counter = 3
      ∧ pixelAt buffer' 4 0 0 = some (2, 87, 172) := by
  obtain ⟨g', buffer', hrun, hcnt, hpix, _⟩ := testPattern_frame_sequence.1
    [stillEnv, stillEnv] stillEnv 4 2 (List.replicate 24 0) (by decide) (by decide)
    (by decide) (by decide)
  exact ⟨g', buffer', hrun, hcnt, hpix⟩
/-! ## The frame does not depend on what the buffer held before -/

/-- The three bytes behind a pixel read. -/
theorem pixelAt_eq_some (buffer : List Nat) (w x y : Int) (r gr b : Nat)
    (h : pixelAt buffer w x y = some (r, gr, b)) :
    buffer[((y * w + x) * 3).toNat]? = some r
    ∧ buffer[((y * w + x) * 3).toNat + 1]? = some gr
    ∧ buffer[((y * w + x) * 3).toNat + 2]? = some b := by
  unfold pixelAt at h
  dsimp only at h
  split at h
  · rename_i r' g' b' h0 h1 h2
    have hc := Option.some.inj h
    have e1 : r' = r := congrArg Prod.fst hc
    have e2 : g' = gr := congrArg (fun p => p.2.1) hc
    have e3 : b' = b := congrArg (fun p => p.2.2) hc
    rw [h0, h1, h2, e1, e2, e3]
    exact ⟨rfl, rfl, rfl⟩
  · cases h

/-- Two buffers of `w*h*3` bytes, `w > 0`, that hold the same colour at
every pixel of the frame are equal. -/
theorem buffer_ext_of_pixels (w h : Int) (hw : 0 < w) (b1 b2 : List Nat)
    (hl1 : (b1.length : Int) = w * h * 3) (hl2 : b2.length = b1.length)
    (hpix : ∀ x y, 0 ≤ x → x < w → 0 ≤ y → y < h →
      ∃ c, pixelAt b1 w x y = some c ∧ pixelAt b2 w x y = some c) :
    b1 = b2 := by
  apply List.ext_getElem?
  intro n
  by_cases hn : n < b1.length
  · have hp0 : 0 ≤ (n : Int) / 3 := by omega
    have hp1 : (n : Int) / 3 < h * w := by
      have e : h * w = w * h := Int.mul_comm h w
      omega
    have hx0 : 0 ≤ ((n : Int) / 3) % w := Int.emod_nonneg _ (by omega)
    have hx1 : ((n : Int) / 3) % w < w := Int.emod_lt_of_pos _ hw
    have hy0 : 0 ≤ ((n : Int) / 3) / w := Int.ediv_nonneg hp0 (by omega)
    have hy1 : ((n : Int) / 3) / w < h := Int.ediv_lt_of_lt_mul hw hp1
    have hsum : ((n : Int) / 3) / w * w + ((n : Int) / 3) % w = (n : Int) / 3 := by
      rw [Int.mul_comm]
      exact Int.ediv_add_emod _ _
    obtain ⟨c, h1, h2⟩ := hpix (((n : Int) / 3) % w) (((n : Int) / 3) / w) hx0 hx1 hy0 hy1
    obtain ⟨r, gr, b⟩ := c
    obtain ⟨a0, a1, a2⟩ := pixelAt_eq_some b1 w _ _ r gr b h1
    obtain ⟨c0, c1, c2⟩ := pixelAt_eq_some b2 w _ _ r gr b h2
    rw [hsum] at a0 a1 a2 c0 c1 c2
    have hk : n = ((n : Int) / 3 * 3).toNat ∨ n = ((n : Int) / 3 * 3).toNat + 1
        ∨ n = ((n : Int) / 3 * 3).toNat + 2 := by omega
    rcases hk with hk | hk | hk
    · rw [hk, a0, c0]
    · rw [hk, a1, c1]
    · rw [hk, a2, c2]
  · rw [List.getElem?_eq_none (by omega), List.getElem?_eq_none (by omega)]

/-- The TestPattern overwrites the whole buffer. -/
theorem generateTestPattern_same (g : FrameGenerator) (b1 b2 : List Nat)
    (hw : 0 < g.frame_width)
    (hl1 : (b1.length : Int) = g.frame_width * g.frame_height * 3)
    (hl2 : b2.length = b1.length) :
    ∃ b', g.generateTestPattern b1 = .ok b' ∧ g.generateTestPattern b2 = .ok b'
      ∧ b'.length = b1.length := by
  obtain ⟨o1, hr1, hlo1, hp1⟩ := generateTestPattern_pixels g b1 hl1
  obtain ⟨o2, hr2, hlo2, hp2⟩ := generateTestPattern_pixels g b2 (by rw [hl2]; exact hl1)
  have heq : o1 = o2 := buffer_ext_of_pixels g.frame_width g.frame_height hw o1 o2
    (by rw [hlo1]; exact hl1) (by rw [hlo2, hlo1, hl2])
    (fun x y hx hxw hy hyh => ⟨_, hp1 x y hx hxw hy hyh, hp2 x y hx hxw hy hyh⟩)
  exact ⟨o1, hr1, by rw [heq]; exact hr2, hlo1⟩

/-- The ColorBars on a frame at least 8 wide overwrite the whole buffer. -/
theorem generateColorBars_same (g : FrameGenerator) (b1 b2 : List Nat)
    (hw : 8 ≤ g.frame_width)
    (hl1 : (b1.length : Int) = g.frame_width * g.frame_height * 3)
    (hl2 : b2.length = b1.length) :
    ∃ b', g.generateColorBars b1 = .ok b' ∧ g.generateColorBars b2 = .ok b'
      ∧ b'.length = b1.length := by
  obtain ⟨o1, hr1, hlo1, hp1⟩ := generateColorBars_pixels g b1 hw hl1
  obtain ⟨o2, hr2, hlo2, hp2⟩ := generateColorBars_pixels g b2 hw (by rw [hl2]; exact hl1)
  have heq : o1 = o2 := buffer_ext_of_pixels g.frame_width g.frame_height (by omega) o1 o2
    (by rw [hlo1]; exact hl1) (by rw [hlo2, hlo1, hl2])
    (fun x y hx hxw hy hyh => by
      obtain ⟨c, hc, _⟩ := colorBars_body g hw x y b1 hx
      exact ⟨c, by rw [hp1 x y hx hxw hy hyh, hc], by rw [hp2 x y hx hxw hy hyh, hc]⟩)
  exact ⟨o1, hr1, by rw [heq]; exact hr2, hlo1⟩

/-- The checkerboard overwrites the whole buffer. -/
theorem generateImageFile_same (g : FrameGenerator) (b1 b2 : List Nat)
    (hw : 0 < g.frame_width)
    (hl1 : (b1.length : Int) = g.frame_width * g.frame_height * 3)
    (hl2 : b2.length = b1.length) :
    ∃ b', g.generateImageFile b1 = .ok b' ∧ g.generateImageFile b2 = .ok b'
      ∧ b'.length = b1.length := by
  obtain ⟨o1, hr1, hlo1, hp1⟩ := generateImageFile_pixels g b1 hl1
  obtain ⟨o2, hr2, hlo2, hp2⟩ := generateImageFile_pixels g b2 (by rw [hl2]; exact hl1)
  have heq : o1 = o2 := buffer_ext_of_pixels g.frame_width g.frame_height hw o1 o2
    (by rw [hlo1]; exact hl1) (by rw [hlo2, hlo1, hl2])
    (fun x y hx hxw hy hyh => ⟨_, hp1 x y hx hxw hy hyh, hp2 x y hx hxw hy hyh⟩)
  exact ⟨o1, hr1, by rw [heq]; exact hr2, hlo1⟩

/-- A `memset` over the whole buffer leaves nothing of it. -/
theorem memsetZero_same (b1 b2 : List Nat) (n : Nat) (h1 : n = b1.length)
    (h2 : b2.length = b1.length) : memsetZero b1 n = memsetZero b2 n := by
  unfold memsetZero
  rw [if_pos (by omega), if_pos (by omega), List.drop_eq_nil_of_le (by omega),
    List.drop_eq_nil_of_le (by omega)]

/-- The orbiting disk is drawn on a buffer cleared as a whole. -/
theorem generateVideoFile_same (env : TimeEnv) (g : FrameGenerator) (b1 b2 : List Nat)
    (hl1 : (b1.length : Int) = g.frame_width * g.frame_height * 3)
    (hl2 : b2.length = b1.length) (hsize : g.frame_size = b1.length) :
    ∃ b', g.generateVideoFile env b1 = .ok b' ∧ g.generateVideoFile env b2 = .ok b'
      ∧ b'.length = b1.length := by
  obtain ⟨o1, hr1, hlo1⟩ := generateVideoFile_length env g b1 hl1 hsize
  refine ⟨o1, hr1, ?_, hlo1⟩
  rw [← hr1]
  unfold FrameGenerator.generateVideoFile
  rw [memsetZero_same b2 b1 g.frame_size (by rw [hsize, hl2]) hl2.symm]

/-- The placeholder of the live source first overwrites the whole buffer. -/
theorem generateRTMPPlaceholder_same (env : TimeEnv) (g : FrameGenerator) (b1 b2 : List Nat)
    (hw : 0 < g.frame_width)
    (hl1 : (b1.length : Int) = g.frame_width * g.frame_height * 3)
    (hl2 : b2.length = b1.length) :
    ∃ b', g.generateRTMPPlaceholder env b1 = .ok b' ∧ g.generateRTMPPlaceholder env b2 = .ok b'
      ∧ b'.length = b1.length := by
  obtain ⟨o1, hr1, hlo1⟩ := generateRTMPPlaceholder_length env g b1 hl1
  refine ⟨o1, hr1, ?_, hlo1⟩
  obtain ⟨c1, hc1, hcl1, hp1⟩ := fill_frame g (fun _ _ => (env.pulse, 0, 0))
    (fun y x buf => g.setPixel buf x y env.pulse 0 0) (fun _ _ _ _ _ _ _ => rfl) b1 hl1
  obtain ⟨c2, hc2, hcl2, hp2⟩ := fill_frame g (fun _ _ => (env.pulse, 0, 0))
    (fun y x buf => g.setPixel buf x y env.pulse 0 0) (fun _ _ _ _ _ _ _ => rfl) b2
    (by rw [hl2]; exact hl1)
  have heq : c1 = c2 := buffer_ext_of_pixels g.frame_width g.frame_height hw c1 c2
    (by rw [hcl1]; exact hl1) (by rw [hcl2, hcl1, hl2])
    (fun x y hx hxw hy hyh => ⟨_, hp1 x y hx hxw hy hyh, hp2 x y hx hxw hy hyh⟩)
  rw [← hr1]
  unfold FrameGenerator.generateRTMPPlaceholder
  simp only [bind, Except.bind, hc1, hc2, heq]

/-- C20: for every pattern code, every clock reading and every generator
whose frame is at least 8 pixels wide, `generateFrame` returns the same
generator state and the same buffer contents on any two input buffers of
`width*height*3` bytes: the output depends only on the pattern, the
geometry, the frame counter and the clock values, and no byte of the reused
buffer survives. -/
theorem generateFrame_ignores_old_contents (env : TimeEnv) (g : FrameGenerator)
    (b1 b2 : List Nat) (hw : 8 ≤ g.frame_width)
    (hl1 : (b1.length : Int) = g.frame_width * g.frame_height * 3)
    (hl2 : (b2.length : Int) = g.frame_width * g.frame_height * 3)
    (hsize : (g.frame_size : Int) = g.frame_width * g.frame_height * 3) :
    ∃ g' b', g.generateFrame env b1 = .ok (g', b') ∧ g.generateFrame env b2 = .ok (g', b')
      ∧ (b'.length : Int) = g.frame_width * g.frame_height * 3 := by
  have hl : b2.length = b1.length := by
    have : (b2.length : Int) = (b1.length : Int) := by rw [hl1, hl2]
    exact_mod_cast this
  have hs : g.frame_size = b1.length := by
    have : (g.frame_size : Int) = (b1.length : Int) := by rw [hl1, hsize]
    exact_mod_cast this
  have hrender : ∃ b', FrameGenerator.renderPattern env g b1 = .ok b'
      ∧ FrameGenerator.renderPattern env g b2 = .ok b' ∧ b'.length = b1.length := by
    unfold FrameGenerator.renderPattern
    split_ifs
    · exact generateTestPattern_same g b1 b2 (by omega) hl1 hl
    · exact generateColorBars_same g b1 b2 hw hl1 hl
    · exact generateImageFile_same g b1 b2 (by omega) hl1 hl
    · exact generateVideoFile_same env g b1 b2 hl1 hl hs
    · exact generateRTMPPlaceholder_same env g b1 b2 (by omega) hl1 hl
    · exact generateTestPattern_same g b1 b2 (by omega) hl1 hl
  obtain ⟨b', hr1, hr2, hlb⟩ := hrender
  refine ⟨{ g with frame_counter := (g.frame_counter + 1) % 2 ^ 64 }, b', ?_, ?_, ?_⟩
  · unfold FrameGenerator.generateFrame
    simp only [bind, Except.bind, hr1]
  · unfold FrameGenerator.generateFrame
    simp only [bind, Except.bind, hr2]
  · rw [hlb]; exact hl1

/-- C20, witness for `generateFrame_ignores_old_contents`: ColorBars on an
8x1 frame, from a zeroed buffer and from a buffer of bytes 9. -/
theorem generateFrame_ignores_old_contents_witness :
    ∃ g' b', FrameGenerator.generateFrame stillEnv (FrameGenerator.new 8 1 COLOR_BARS)
        (List.replicate 24 0) = .ok (g', b')
      ∧ FrameGenerator.generateFrame stillEnv (FrameGenerator.new 8 1 COLOR_BARS)
        (List.replicate 24 9) = .ok (g', b') := by
  obtain ⟨g', b', h1, h2, _⟩ := generateFrame_ignores_old_contents stillEnv
    (FrameGenerator.new 8 1 COLOR_BARS) (List.replicate 24 0) (List.replicate 24 9)
    (by decide) (by decide) (by decide) (by decide)
  exact ⟨g', b', h1, h2⟩

end MagicCam
